import Mathlib

/-!
Verification of the DutyWatch pairing/row-building core (src/parser.py,
src/pairing_builder.py, src/rows.py, src/utils.py) against its
natural-language specification.

Modelling conventions used throughout this shallow embedding:
* Local wall-clock datetimes are modelled as `Int` minutes since the local
  epoch 1970-01-01 00:00; calendar dates as `Int` day numbers (minutes / 1440).
  All duty times in the source are whole minutes, so minute granularity is
  exact for every comparison and threshold the code performs
  (`gap.total_seconds() > 3600` on whole-minute datetimes is `gapMin > 60`).
* ISO-8601 timestamp strings (`start_utc`, `*_local_iso`) are represented by
  their parsed value (`Option Int`); `iso_to_dt`/`isoformat` become the
  identity, and Python's `None`-vs-string truthiness becomes `Option`.
  Lexicographic order on the uniform ISO strings the code produces agrees
  with chronological order, so string sort keys are modelled by value keys
  with `None`/`""` ordered first, exactly as `or ""` / `or datetime.min` do.
* The zone `America/Chicago` (ZoneInfo) is modelled at its standard offset
  UTC-6; every concrete instant used below falls outside daylight-saving
  time, where the model is exact.
* Python exceptions that can escape `build_pairing_rows`
  (`datetime`/`date` constructor `ValueError`s on out-of-range fields and
  the `None + timedelta` `TypeError`) are modelled with `Except String`;
  `try/except`-guarded date parsing is modelled with `Option`.
* `int(s)` on the digit-only strings the regexes capture is `pyInt`.
-/

/-- Characters of a string (all scanning is done on `List Char`). -/
def chars (s : String) : List Char := s.data

/-- Rebuild a string from characters. -/
def ofChars (cs : List Char) : String := String.mk cs

/-- Python `s[:n]` on our digit/letter strings. -/
def strTake (s : String) (n : Nat) : String := ofChars (s.data.take n)

/-- Python `s[n:]`. -/
def strDrop (s : String) (n : Nat) : String := ofChars (s.data.drop n)

/-- Accumulate decimal digits. -/
def pyIntAux : Nat → List Char → Nat
  | acc, [] => acc
  | acc, c :: rest => pyIntAux (acc * 10 + (c.toNat - 48)) rest

/-- Python `int(s)`; callers only pass non-empty digit strings captured by
`\d`-regexes, where this agrees with `int`. -/
def pyInt (s : String) : Nat := pyIntAux 0 s.data

/-- `str.upper()` (ASCII inputs). -/
def upperStr (s : String) : String := ofChars (s.data.map Char.toUpper)

/-- Python `str.zfill(w)` on digit strings (no sign handling needed). -/
def zfill (s : String) (w : Nat) : String :=
  if w ≤ s.length then s else ofChars (List.replicate (w - s.length) '0' ++ s.data)

/-- Zero-padded two-digit rendering (`f"{n:02d}"`, strftime `%d`/`%M`). -/
def pad2 (n : Nat) : String := if n < 10 then "0" ++ toString n else toString n

/-- Python `\s` character class. -/
def isWs (c : Char) : Bool :=
  c == ' ' || c == '\t' || c == '\n' || c == '\r' || c == '\x0b' || c == '\x0c'

/-- Python regex `\w` (ASCII range; all inputs are ASCII). -/
def isWordChar (c : Char) : Bool := c.isAlphanum || c == '_'

/-- Python `str.strip()`. -/
def strip (s : String) : String :=
  ofChars (((s.data.dropWhile isWs).reverse.dropWhile isWs).reverse)

/-- Gregorian leap-year test (`datetime.date` rules). -/
def isLeap (y : Int) : Bool :=
  (y.emod 4 == 0 && y.emod 100 != 0) || y.emod 400 == 0

/-- Days in a month, as `datetime.date` validates them. -/
def daysInMonth (y : Int) (m : Nat) : Nat :=
  if m = 2 then (if isLeap y then 29 else 28)
  else if m = 4 ∨ m = 6 ∨ m = 9 ∨ m = 11 then 30 else 31

/-- Day number (days since 1970-01-01) of a civil date. -/
def daysFromCivil (y : Int) (m d : Nat) : Int :=
  let y' : Int := if m ≤ 2 then y - 1 else y
  let era : Int := y'.fdiv 400
  let yoe : Nat := (y' - era * 400).toNat
  let mp : Nat := if 2 < m then m - 3 else m + 9
  let doy : Nat := (153 * mp + 2) / 5 + d - 1
  let doe : Nat := yoe * 365 + yoe / 4 - yoe / 100 + doy
  era * 146097 + (doe : Int) - 719468

/-- Civil date (year, month, day) of a day number. -/
def civilFromDays (z0 : Int) : Int × Nat × Nat :=
  let z : Int := z0 + 719468
  let era : Int := z.fdiv 146097
  let doe : Nat := (z - era * 146097).toNat
  let yoe : Nat := (doe - doe / 1460 + doe / 36524 - doe / 146096) / 365
  let doy : Nat := doe - (365 * yoe + yoe / 4 - yoe / 100)
  let mp : Nat := (5 * doy + 2) / 153
  let d : Nat := doy - (153 * mp + 2) / 5 + 1
  let m : Nat := if mp < 10 then mp + 3 else mp - 9
  (era * 400 + (yoe : Int) + (if m ≤ 2 then 1 else 0), m, d)

/-- `dt.date(y, m, d)`: `some` day number, or `none` where the constructor
would raise `ValueError`. -/
def mkDate (y : Int) (m d : Nat) : Option Int :=
  if 1 ≤ m ∧ m ≤ 12 ∧ 1 ≤ d ∧ d ≤ daysInMonth y m then some (daysFromCivil y m d)
  else none

/-- `.year` of a day number. -/
def dateY (z : Int) : Int := (civilFromDays z).1

/-- `.month` of a day number. -/
def dateM (z : Int) : Nat := (civilFromDays z).2.1

/-- `.day` of a day number. -/
def dateD (z : Int) : Nat := (civilFromDays z).2.2

/-- strftime `%a` (1970-01-01 was a Thursday). -/
def weekdayName (z : Int) : String :=
  (["Sun", "Mon", "Tue", "Wed", "Thu", "Fri", "Sat"].get? ((z + 4).emod 7).toNat).getD ""

/-- strftime `%b`. -/
def monthAbbrev (m : Nat) : String :=
  (["Jan", "Feb", "Mar", "Apr", "May", "Jun", "Jul", "Aug", "Sep", "Oct",
    "Nov", "Dec"].get? (m - 1)).getD ""

/-- Local minutes value of a civil wall-clock instant (helper for stating
concrete inputs). -/
def localMinutes (y : Int) (m d hh mi : Nat) : Int :=
  daysFromCivil y m d * 1440 + hh * 60 + mi

/-- Fixed standard-time offset of `America/Chicago` (CST, UTC-6), in minutes. -/
def LOCAL_UTC_OFFSET_MIN : Int := 360

/-- Sort key ordering for `key or ""` / `key or datetime.min` patterns:
missing keys sort first, present keys chronologically. -/
def optTimeLe : Option Int → Option Int → Bool
  | none, _ => true
  | some _, none => false
  | some a, some b => a ≤ b

/-- Python truthiness of an optional string (`None` and `""` are falsy). -/
def truthyS : Option String → Bool
  | some s => s ≠ ""
  | none => false

/-- Stable insertion of `x` after all list elements `y` with `le y x`
(mirrors the placement CPython's stable `sort` gives). -/
def insertSortedBy (le : α → α → Bool) (x : α) : List α → List α
  | [] => [x]
  | y :: ys => if le y x then y :: insertSortedBy le x ys else x :: y :: ys

/-- Stable sort (models Python `sorted`/`list.sort`). -/
def stableSortBy (le : α → α → Bool) (l : List α) : List α :=
  l.foldl (fun acc x => insertSortedBy le x acc) []

/-- Ordered association-list append-or-extend (models `dict.setdefault(k, []).append(x)`
under Python's insertion-ordered dicts). -/
def addGroup (groups : List (String × List α)) (k : String) (x : α) :
    List (String × List α) :=
  match groups with
  | [] => [(k, [x])]
  | (k', xs) :: rest =>
      if k' = k then (k', xs ++ [x]) :: rest else (k', xs) :: addGroup rest k x

/-- Association-list store-or-overwrite (models `d[k] = v`). -/
def assocSet (m : List (String × α)) (k : String) (v : α) : List (String × α) :=
  match m with
  | [] => [(k, v)]
  | (k', v') :: rest => if k' = k then (k, v) :: rest else (k', v') :: assocSet rest k v

/-- Association-list store-or-overwrite with `Int` keys. -/
def assocSetI (m : List (Int × α)) (k : Int) (v : α) : List (Int × α) :=
  match m with
  | [] => [(k, v)]
  | (k', v') :: rest => if k' = k then (k, v) :: rest else (k', v') :: assocSetI rest k v

namespace Utils

/-- utils.iso_to_dt: ISO strings are carried as their parsed value, so this
is the identity on the model (malformed strings are the `none` case). -/
def iso_to_dt (s : Option Int) : Option Int := s

/-- utils.to_local: UTC minutes to local wall-clock minutes. -/
def to_local (d : Option Int) : Option Int := d.map (fun x => x - LOCAL_UTC_OFFSET_MIN)

/-- utils.ensure_hhmm. -/
def ensure_hhmm (s : String) : String :=
  if s = "" then "" else if s.length < 4 then zfill s 4 else s

/-- utils.to_12h. -/
def to_12h (hhmm0 : String) : String :=
  let hhmm := ensure_hhmm hhmm0
  if hhmm = "" ∨ hhmm.length < 4 then ""
  else
    let h := pyInt (strTake hhmm 2)
    let m := strDrop hhmm 2
    let ampm := if h < 12 then "AM" else "PM"
    let h12 := if h % 12 = 0 then 12 else h % 12
    toString h12 ++ ":" ++ m ++ " " ++ ampm

/-- utils.fmt_time. -/
def fmt_time (hhmm0 : String) (use24 : Bool) : String :=
  if hhmm0 = "" then ""
  else
    let hhmm := ensure_hhmm hhmm0
    if use24 then strTake hhmm 2 ++ ":" ++ strDrop hhmm 2 else to_12h hhmm

/-- utils.time_display. -/
def time_display (hhmm : Option String) (is24 : Bool) : String :=
  match hhmm with
  | none => ""
  | some s => if s = "" then "" else fmt_time s is24

/-- utils.human_duration on a timedelta of `tdMin` whole minutes
(`total_seconds() // 3600` is then `tdMin.fdiv 60`). -/
def human_duration (tdMin : Int) : String :=
  let total_h : Int := max 0 (tdMin.fdiv 60)
  if 48 ≤ total_h then
    toString (total_h.fdiv 24) ++ "d " ++ toString (total_h.emod 24) ++ "h"
  else
    toString total_h ++ "h"

end Utils

namespace Parser

/-- One extracted flight leg (parser.py leg dict). The source dict key
`day_prefix` is embedded as the field `day_pref`. -/
structure Leg where
  flight : String
  dep : String
  arr : String
  dep_time : String
  arr_time : String
  deadhead : Bool
  day_pref : Option String
deriving DecidableEq, Repr

/-- One parsed day record (parser.py day dict). -/
structure DayParsed where
  report : Option String
  report_date : Option String
  legs : List Leg
  release : Option String
  hotel : Option String
deriving DecidableEq, Repr

/-- parse_pairing_days result `{"days": [...]}`. -/
structure ParsedDays where
  days : List DayParsed
deriving DecidableEq, Repr

/-- parser._ensure_hhmm. -/
def ensure_hhmm (s : String) : String := if s.length = 4 then s else zfill s 4

/-- parser._mins_from_hhmm. -/
def mins_from_hhmm (s : String) : Nat :=
  let h := ensure_hhmm s
  pyInt (strTake h 2) * 60 + pyInt (strDrop h 2)

/-- parser._hhmm_from_mins (wraps modulo 24h). -/
def hhmm_from_mins (total : Nat) : String :=
  let t := total % 1440
  pad2 (t / 60) ++ pad2 (t % 60)

/-- Case-insensitive literal match (regex IGNORECASE); returns the rest. -/
def litCI : List Char → List Char → Option (List Char)
  | [], cs => some cs
  | _ :: _, [] => none
  | l :: ls, c :: cs => if l.toLower = c.toLower then litCI ls cs else none

/-- Greedy `\s*`. -/
def dropWs (cs : List Char) : List Char := cs.dropWhile isWs

/-- `\s+` (greedy; every use site is followed by a non-`\s` token class,
so greedy matching without giving back is exact). -/
def takeWs1 (cs : List Char) : Option (List Char) :=
  match cs with
  | c :: rest => if isWs c then some (rest.dropWhile isWs) else none
  | [] => none

/-- Exactly `n` digits. -/
def takeDigitsN : Nat → List Char → Option (String × List Char)
  | 0, cs => some ("", cs)
  | n + 1, c :: cs =>
      if c.isDigit then
        (takeDigitsN n cs).map (fun r => (ofChars [c] ++ r.1, r.2))
      else none
  | _ + 1, [] => none

/-- Greedy `\d+` (`none` when no digit). A shorter split can never help the
patterns below (each is followed by a non-digit requirement), so greedy
matching is exact. -/
def takeDigitRun (cs : List Char) : Option (String × List Char) :=
  match cs with
  | c :: rest =>
      if c.isDigit then some (ofChars (c :: rest.takeWhile Char.isDigit), rest.dropWhile Char.isDigit)
      else none
  | [] => none

/-- Exactly `n` ASCII letters (`[A-Za-z]{n}`, the IGNORECASE reading of `[A-Z]{n}`). -/
def takeAlphaN : Nat → List Char → Option (String × List Char)
  | 0, cs => some ("", cs)
  | n + 1, c :: cs =>
      if c.isAlpha then
        (takeAlphaN n cs).map (fun r => (ofChars [c] ++ r.1, r.2))
      else none
  | _ + 1, [] => none

/-- `\b` after a word character: next char absent or non-word. -/
def endBoundary (cs : List Char) : Bool :=
  match cs with
  | [] => true
  | c :: _ => ¬ isWordChar c

/-- `(\d{3,4})L?\b` of REPORT_RE: greedy 4 digits, backtracking to 3; the
optional `L`; the trailing boundary. Returns the captured digits. -/
def reportTimeAt (cs : List Char) : Option String :=
  let finish : String → List Char → Option String := fun ds rest =>
    match rest with
    | c :: rest2 =>
        if c = 'L' ∨ c = 'l' then (if endBoundary rest2 then some ds else none)
        else if isWordChar c then none else some ds
    | [] => some ds
  (do
    let (ds, rest) ← takeDigitsN 4 cs
    finish ds rest) <|>
  (do
    let (ds, rest) ← takeDigitsN 3 cs
    finish ds rest)

/-- `(\d{n}[A-Za-z]{3})\s+` of REPORT_RE's optional date group; returns the
captured date token (raw text). -/
def reportDateAt (n : Nat) (cs : List Char) : Option (String × List Char) := do
  let (ds, rest) ← takeDigitsN n cs
  let (ls, rest2) ← takeAlphaN 3 rest
  let rest3 ← takeWs1 rest2
  pure (ds ++ ls, rest3)

/-- REPORT_RE continuation after the literal `Report:` — `\s*` then the
alternatives in the regex engine's exploration order: date group with two
digits, date group with one digit, no date group. -/
def reportAfterColon (cs0 : List Char) : Option (Option String × String) :=
  let cs := dropWs cs0
  (do
    let (dstr, rest) ← reportDateAt 2 cs
    let t ← reportTimeAt rest
    pure (some dstr, t)) <|>
  (do
    let (dstr, rest) ← reportDateAt 1 cs
    let t ← reportTimeAt rest
    pure (some dstr, t)) <|>
  (do
    let t ← reportTimeAt cs
    pure ((none : Option String), t))

/-- REPORT_RE.search: leftmost position where `\bReport:` (IGNORECASE)
matches and the tail pattern succeeds. Returns (group 1, group 2). -/
def searchReportAux : Option Char → List Char → Option (Option String × String)
  | _, [] => none
  | prev, c :: rest =>
      let hit :=
        if (match prev with | none => true | some p => ¬ isWordChar p) then
          match litCI (chars "Report:") (c :: rest) with
          | some after => reportAfterColon after
          | none => none
        else none
      match hit with
      | some r => some r
      | none => searchReportAux (some c) rest

/-- parser.REPORT_RE searched over a string. -/
def searchReport (s : String) : Option (Option String × String) :=
  searchReportAux none s.data

/-- `([A-Za-z]{2}\d{n})\s+` — LEG_RE's optional day-prefix group with the
`\d{1,2}` quantifier fixed at `n`. -/
def legG1 (n : Nat) (cs : List Char) : Option (String × List Char) := do
  let (ls, rest) ← takeAlphaN 2 cs
  let (ds, rest2) ← takeDigitsN n rest
  let rest3 ← takeWs1 rest2
  pure (ls ++ ds, rest3)

/-- `DH\s+` deadhead marker alternative. -/
def legG2dh (cs : List Char) : Option (List Char) := do
  let rest ← litCI (chars "DH") cs
  takeWs1 rest

/-- `N\s*NTR\s+` deadhead marker alternative. -/
def legG2ntr (cs : List Char) : Option (List Char) := do
  let rest ← litCI (chars "N") cs
  let rest2 ← litCI (chars "NTR") (dropWs rest)
  takeWs1 rest2

/-- `(\d{3,4})-(\d{3,4})\b` — the block-time pair, in exploration order
4-4, 4-3, 3-4, 3-3 with the final word boundary. -/
def legTimesAt (cs : List Char) : Option (String × String × List Char) :=
  let second : String → List Char → Option (String × String × List Char) :=
    fun t1 rest =>
      (do
        let (t2, rest2) ← takeDigitsN 4 rest
        if endBoundary rest2 then pure (t1, t2, rest2) else none) <|>
      (do
        let (t2, rest2) ← takeDigitsN 3 rest
        if endBoundary rest2 then pure (t1, t2, rest2) else none)
  (do
    let (t1, rest) ← takeDigitsN 4 cs
    match rest with
    | '-' :: rest2 => second t1 rest2
    | _ => none) <|>
  (do
    let (t1, rest) ← takeDigitsN 3 cs
    match rest with
    | '-' :: rest2 => second t1 rest2
    | _ => none)

/-- LEG_RE core after the two optional groups:
`(\d+)\s+([A-Za-z]{3})-([A-Za-z]{3})\s+` then the time pair. -/
def legCore (cs : List Char) : Option (String × String × String × String × String × List Char) := do
  let (flight, rest) ← takeDigitRun cs
  let rest2 ← takeWs1 rest
  let (dep, rest3) ← takeAlphaN 3 rest2
  match rest3 with
  | '-' :: rest4 => do
      let (arr, rest5) ← takeAlphaN 3 rest4
      let rest6 ← takeWs1 rest5
      let (t1, t2, rest7) ← legTimesAt rest6
      pure (flight, dep, arr, t1, t2, rest7)
  | _ => none

/-- Assemble one leg dict from LEG_RE's captured groups (parser.py lines
171-185). -/
def mkLeg (dayp : Option String) (dh : Bool)
    (g : String × String × String × String × String × List Char) : Leg × List Char :=
  let (flight, dep, arr, t1, t2, rest) := g
  ({ flight := flight, dep := upperStr dep, arr := upperStr arr,
     dep_time := ensure_hhmm t1, arr_time := ensure_hhmm t2,
     deadhead := dh,
     day_pref := dayp.map upperStr }, rest)

/-- The deadhead-marker alternatives (`DH`, `N\s*NTR`, absent) followed by
the leg core, in regex exploration order. -/
def legWithG2 (dayp : Option String) (cs : List Char) : Option (Leg × List Char) :=
  (do
    let rest ← legG2dh cs
    let g ← legCore rest
    pure (mkLeg dayp true g)) <|>
  (do
    let rest ← legG2ntr cs
    let g ← legCore rest
    pure (mkLeg dayp true g)) <|>
  (do
    let g ← legCore cs
    pure (mkLeg dayp false g))

/-- Try LEG_RE at one position (the leading `\b` is checked by the caller):
day-prefix group with 2 digits, with 1 digit, then absent — each followed
by the marker/core alternatives. -/
def matchLegAt (cs : List Char) : Option (Leg × List Char) :=
  (do
    let (g1, rest) ← legG1 2 cs
    legWithG2 (some g1) rest) <|>
  (do
    let (g1, rest) ← legG1 1 cs
    legWithG2 (some g1) rest) <|>
  legWithG2 none cs

/-- LEG_RE.finditer: scan left to right, resuming after each match (every
match ends in a digit, a word character, so the next position's `\b`
context is a word character). The fuel starts at `length + 1` and each
step consumes at least one input character, so it never runs out. -/
def scanLegsAux : Nat → Option Char → List Char → List Leg
  | 0, _, _ => []
  | _ + 1, _, [] => []
  | fuel + 1, prev, c :: rest =>
      let okStart := match prev with | none => true | some p => ¬ isWordChar p
      if okStart then
        match matchLegAt (c :: rest) with
        | some (leg, rest') => leg :: scanLegsAux fuel (some '0') rest'
        | none => scanLegsAux fuel (some c) rest
      else scanLegsAux fuel (some c) rest

/-- parser.LEG_RE.finditer over a string, yielding legs in text order. -/
def findLegs (s : String) : List Leg :=
  scanLegsAux (s.data.length + 1) none s.data

/-- parser.PHONE_ONLY_RE.match: the line consists only of
`[\d\-\s().+]` characters and has length at least 7 (the class contains
`\s`, so the anchored `^\s*[...]{7,}\s*$` reduces to exactly this). -/
def phoneOnly (s : String) : Bool :=
  7 ≤ s.length &&
    s.data.all (fun c => c.isDigit || c == '-' || c == '(' || c == ')' ||
      c == '.' || c == '+' || isWs c)

/-- Is `needle` a prefix of `hay`? Callers lower-case both sides. -/
def listIsPref : List Char → List Char → Bool
  | [], _ => true
  | _ :: _, [] => false
  | n :: ns, h :: hs => n == h && listIsPref ns hs

/-- Helper for case-insensitive substring containment: try every suffix. -/
def containsSubCIAux (n : List Char) : List Char → Bool
  | [] => listIsPref n []
  | c :: rest => listIsPref n (c :: rest) || containsSubCIAux n rest

/-- Case-insensitive substring containment. -/
def containsSubCI (needle hay : String) : Bool :=
  containsSubCIAux (needle.data.map Char.toLower) (hay.data.map Char.toLower)

/-- parser.BOILERPLATE_RE.search. -/
def boilerplate (s : String) : Bool :=
  containsSubCI "Created by the Flight Crew View App" s

/-- The HOTELISH_KEYWORDS alternation (with `Suites?` expanded to its two
forms; only existence of a match matters). -/
def hotelKeywords : List String :=
  ["Hotel", "Inn", "Suites", "Suite", "Resort", "Lodge", "Residence", "Place",
   "Element", "Embassy", "Hilton", "Hyatt", "Westin", "Marriott", "Plaza",
   "Centre", "Center", "Aloft", "Courtyard", "Stay"]

/-- One keyword matches at this position with a trailing word boundary. -/
def hotelishAt (cs : List Char) : Bool :=
  hotelKeywords.any (fun k =>
    match litCI (chars k) cs with
    | some rest => endBoundary rest
    | none => false)

/-- parser.HOTELISH_KEYWORDS.search (leading `\b` via the previous char). -/
def hotelishSearchAux : Option Char → List Char → Bool
  | _, [] => false
  | prev, c :: rest =>
      let okStart := match prev with | none => true | some p => ¬ isWordChar p
      (okStart && hotelishAt (c :: rest)) || hotelishSearchAux (some c) rest

/-- Does a line contain a lodging keyword? -/
def hotelishSearch (s : String) : Bool := hotelishSearchAux none s.data

/-- parser._looks_like_place. -/
def looks_like_place (s : String) : Bool :=
  if s = "" then false
  else if phoneOnly s then false
  else (s.data.any Char.isAlpha) && ((strip s).data.contains ' ')

/-- `str.splitlines()` (the event descriptions use `\n` separators). -/
def splitLinesAux : List Char → List Char → List String
  | acc, [] => [ofChars acc.reverse]
  | acc, c :: rest =>
      if c = '\n' then ofChars acc.reverse :: splitLinesAux [] rest
      else splitLinesAux (c :: acc) rest

/-- Split a description into lines. -/
def splitLines (s : String) : List String :=
  if s = "" then [] else splitLinesAux [] s.data

/-- parser._extract_hotel candidate scan over the cleaned description lines. -/
def hotelFromLines (lines : List String) : Option String :=
  let keep := lines.filter (fun ln =>
    ¬ (searchReport ln).isSome && ¬ (findLegs ln ≠ []) && ¬ phoneOnly ln &&
      ¬ boilerplate ln)
  let pref := keep.filter (fun ln => hotelishSearch ln)
  let fallback := keep.filter (fun ln => ¬ hotelishSearch ln && looks_like_place ln)
  match pref.head? with
  | some h => some h
  | none => fallback.head?

/-- parser._extract_hotel. -/
def extract_hotel (description : String) (location : Option String) : Option String :=
  let fromLoc :=
    match location with
    | some loc => if looks_like_place (strip loc) then some (strip loc) else none
    | none => none
  match fromLoc with
  | some h => some h
  | none =>
      hotelFromLines (((splitLines description).map strip).filter (fun ln => ln ≠ ""))

/-- parser.parse_pairing_days. -/
def parse_pairing_days (text : String) (location : Option String) : ParsedDays :=
  let m := searchReport text
  let report_date := m.bind (·.1)
  let report := m.map (fun r => ensure_hhmm r.2)
  let legs := findLegs text
  let locArg :=
    match location with
    | some l => if strip l = "" then none else some (strip l)
    | none => none
  let hotel := extract_hotel text locArg
  let release :=
    match legs.getLast? with
    | some lst => some (hhmm_from_mins (mins_from_hhmm lst.arr_time + 15))
    | none => none
  if report.isSome ∨ legs ≠ [] ∨ hotel.isSome then
    ⟨[{ report := report, report_date := report_date, legs := legs,
        release := release, hotel := hotel }]⟩
  else ⟨[]⟩

/-- parser.PAIRING_ID_PATTERN fullmatch `^[A-Za-z]\d+[A-Za-z]?$`. -/
def pairingIdPattern (cs : List Char) : Bool :=
  match cs with
  | c :: rest =>
      c.isAlpha &&
        (match takeDigitRun rest with
         | some (_, rest') =>
             match rest' with
             | [] => true
             | [c2] => c2.isAlpha
             | _ => false
         | none => false)
  | [] => false

/-- parser.is_valid_pairing_id. -/
def is_valid_pairing_id (pid : String) : Bool :=
  if pid = "" then false else pairingIdPattern (strip pid).data

/-- parser.extract_pairing_id. -/
def extract_pairing_id (summary : String) : String :=
  if summary = "" then ""
  else
    let t := upperStr (strip summary)
    match t.data with
    | c :: rest =>
        if c.isAlpha then
          match takeDigitRun rest with
          | some (ds, rest') =>
              match rest' with
              | c2 :: _ => if c2.isAlpha then ofChars [c] ++ ds ++ ofChars [c2]
                           else ofChars [c] ++ ds
              | [] => ofChars [c] ++ ds
          | none => t
        else t
    | [] => t

end Parser

/-- A raw calendar event dict (§3 RawEvent). Missing dict keys are `none`;
the `start_utc`/`end_utc` ISO strings are represented by their parsed UTC
minutes (`none` for a missing or unparsable string, which sorts first just
as `""`/`datetime.min` does). -/
structure RawEvent where
  uid : Option String := none
  summary : Option String := none
  description : Option String := none
  location : Option String := none
  start_utc : Option Int := none
  end_utc : Option Int := none
deriving DecidableEq, Repr

namespace PairingBuilder

/-- pairing_builder.PREFIX_TO_BASE. -/
def PREFIX_TO_BASE : List (String × List String) :=
  [("W", ["DFW"]), ("A", ["ATL"]), ("C", ["ORD", "MDW"]), ("O", ["CLE"]),
   ("K", ["CVG"]), ("D", ["DEN"]), ("L", ["LAS"]), ("M", ["MCO"]),
   ("F", ["MIA"]), ("P", ["PHL"]), ("X", ["PHX"]), ("S", ["SJU"]),
   ("B", ["TPA"])]

/-- pairing_builder.get_base_airports. -/
def get_base_airports (pid : String) : List String :=
  match pid.data.head? with
  | some c =>
      ((PREFIX_TO_BASE.find? (fun kv => kv.1 = ofChars [c.toUpper])).map (·.2)).getD []
  | none => []

/-- pairing_builder.ParsedEvent after `__post_init__`. -/
structure ParsedEvent where
  uid : String
  summary : String
  pairing_id : String
  start_utc : Option Int
  end_utc : Option Int
  description : String
  location : Option String
  is_pairing : Bool
  legs : List Parser.Leg
  report_time : Option String
  report_date : Option String
  release_time : Option String
  hotel : Option String
  first_departure : Option String
  last_arrival : Option String
deriving DecidableEq, Repr

/-- Build a ParsedEvent from a raw event (pairing_builder.parse_events item
plus `ParsedEvent.__post_init__`). -/
def mkParsedEvent (ev : RawEvent) : ParsedEvent :=
  let summary := strip (ev.summary.getD "")
  let pid := Parser.extract_pairing_id summary
  let description := ev.description.getD ""
  let parsedDays :=
    if description ≠ "" then (Parser.parse_pairing_days description ev.location).days
    else []
  let legs := (parsedDays.head?.map (·.legs)).getD []
  { uid := ev.uid.getD "", summary := summary, pairing_id := pid,
    start_utc := ev.start_utc, end_utc := ev.end_utc,
    description := description, location := ev.location,
    is_pairing := Parser.is_valid_pairing_id pid,
    legs := legs,
    report_time := parsedDays.head?.bind (·.report),
    report_date := parsedDays.head?.bind (·.report_date),
    release_time := parsedDays.head?.bind (·.release),
    hotel := parsedDays.head?.bind (·.hotel),
    first_departure := legs.head?.map (fun l => upperStr l.dep),
    last_arrival := (legs.getLast?.map (fun l => upperStr l.arr)) }

/-- pairing_builder.parse_events. -/
def parse_events (raws : List RawEvent) : List ParsedEvent := raws.map mkParsedEvent

/-- pairing_builder.classify_event. -/
def classify_event (e : ParsedEvent) (bases : List String) : String :=
  if e.legs = [] then "no_legs"
  else
    let s := match e.first_departure with
      | some a => bases.contains a
      | none => false
    let en := match e.last_arrival with
      | some a => bases.contains a
      | none => false
    if s && en then "single_day" else if s then "start" else if en then "end"
    else "middle"

/-- pairing_builder.Pairing (with its computed validation fields). -/
structure Pairing where
  pairing_id : String
  base_airports : List String
  events : List ParsedEvent := []
  is_pairing : Bool := true
  is_complete : Bool := false
  starts_at_base : Bool := false
  ends_at_base : Bool := false
deriving DecidableEq, Repr

/-- Pairing.first_departure property. -/
def Pairing.first_departure (p : Pairing) : Option String :=
  match p.events.head? with
  | some e => if e.legs ≠ [] then e.first_departure else none
  | none => none

/-- Pairing.last_arrival property. -/
def Pairing.last_arrival (p : Pairing) : Option String :=
  match p.events.getLast? with
  | some e => if e.legs ≠ [] then e.last_arrival else none
  | none => none

/-- Pairing.validate (sets starts_at_base / ends_at_base / is_complete). -/
def validate (p : Pairing) : Pairing :=
  let s := match p.first_departure with
    | some fd => p.base_airports.contains fd
    | none => false
  let en := match p.last_arrival with
    | some la => p.base_airports.contains la
    | none => false
  { p with starts_at_base := s, ends_at_base := en, is_complete := s && en }

/-- The per-pairing-ID walk of build_pairings (lines 252-294): accumulate
consecutive events into the open pairing, closing (and validating) on an
`end`/`single_day` event; `no_legs` events become standalone unvalidated
pairings; an unclosed pairing is validated at the end of the stream. -/
def processPidEvents (pid : String) (bases : List String) :
    Option Pairing → List ParsedEvent → List Pairing
  | cur, [] =>
      (match cur with
       | some p => [validate p]
       | none => [])
  | cur, e :: rest =>
      let ty := classify_event e bases
      if ty = "no_legs" then
        ({ pairing_id := pid, base_airports := bases, events := [e],
           is_pairing := true } : Pairing) :: processPidEvents pid bases cur rest
      else
        let cur' :=
          match cur with
          | none => ({ pairing_id := pid, base_airports := bases, events := [e],
                       is_pairing := true } : Pairing)
          | some p => { p with events := p.events ++ [e] }
        if ty = "end" ∨ ty = "single_day" then
          validate cur' :: processPidEvents pid bases none rest
        else
          processPidEvents pid bases (some cur') rest

/-- Key used by build_pairings' final chronological sort
(`p.events[0].start_utc if p.events else ""`). -/
def pairKey (p : Pairing) : Option Int :=
  match p.events.head? with
  | some e => e.start_utc
  | none => none

/-- pairing_builder.build_pairings after the initial parse (the grouping,
per-group walk, non-pairing passthrough, and final chronological sort). -/
def buildFromParsed (parsed : List ParsedEvent) : List Pairing :=
  let pairing_events := parsed.filter (·.is_pairing)
  let other_events := parsed.filter (fun e => ¬ e.is_pairing)
  let groups := pairing_events.foldl
    (fun g e => addGroup g e.pairing_id e) ([] : List (String × List ParsedEvent))
  let pairings := (groups.map (fun g =>
    processPidEvents g.1 (get_base_airports g.1) none
      (stableSortBy (fun a b => optTimeLe a.start_utc b.start_utc) g.2))).flatten
  let allp := pairings ++ other_events.map (fun e =>
    ({ pairing_id := e.pairing_id, base_airports := [], events := [e],
       is_pairing := false } : Pairing))
  stableSortBy (fun a b => optTimeLe (pairKey a) (pairKey b)) allp

/-- pairing_builder.build_pairings. -/
def build_pairings (raws : List RawEvent) : List Pairing :=
  buildFromParsed (parse_events raws)

end PairingBuilder

namespace Rows

/-- A saved commute preference record, as `get_commute_pref` would return
it (`report_local_iso`, `tracking_url` keys are read from it). -/
structure CommutePref where
  report_local_iso : Option Int := none
  tracking_url : Option String := none
deriving DecidableEq, Repr

/-- A leg dict as build_pairing_rows decorates it (rows.py lines 234-270
and 321-357). Unset dict keys are modelled by the defaults, which are
falsy exactly like dict-miss `get` results. The source key `day_prefix`
is the field `day_pref`. -/
structure LegOut where
  flight : String := ""
  dep : String := ""
  arr : String := ""
  dep_time : String := ""
  arr_time : String := ""
  deadhead : Bool := false
  day_pref : Option String := none
  route_display : String := ""
  block_display : String := ""
  dep_time_str : String := ""
  arr_time_str : String := ""
  tracking_display : String := ""
  tracking_available : Bool := false
  tracking_available_time : Option Int := none
  tracking_message : String := ""
  tracking_url : Option String := none
  tracking_clickable : Bool := false
  done : Bool := false
deriving DecidableEq, Repr

/-- A day dict as it flows through build_pairing_rows (parsed fields plus
the fields added by the flag pass and layover synthesis). -/
structure DayOut where
  report : Option String := none
  report_date : Option String := none
  legs : List LegOut := []
  release : Option String := none
  hotel : Option String := none
  actual_date : Option Int := none
  day_index : Nat := 0
  date_local_iso : Option Int := none
  day_report_dt : Option Int := none
  day_release_dt : Option Int := none
  is_layover : Bool := false
  layover_location : Option String := none
  no_flights_message : Option String := none
deriving DecidableEq, Repr

/-- The `display` sub-dict of a row. -/
structure Display where
  report_str : String := ""
  release_str : String := ""
  label : String := ""
  off_label : String := ""
  off_duration : String := ""
  show_remaining : Bool := false
deriving DecidableEq, Repr

/-- The `ack` sub-dict of a commute row. -/
structure Ack where
  acknowledged : Bool := false
  window_open : Bool := false
  report_local_iso : Option Int := none
deriving DecidableEq, Repr

/-- One output row (`kind` ∈ {"pairing", "commute", "off"}); fields a given
kind never sets keep their defaults, mirroring absent dict keys. -/
structure Row where
  kind : String := ""
  pairing_id : String := ""
  in_progress : Nat := 0
  report_local_iso : Option Int := none
  release_local_iso : Option Int := none
  display : Display := {}
  days : List DayOut := []
  num_days : Nat := 0
  uid : Option String := none
  total_legs : Nat := 0
  has_legs : Bool := false
  first_dep_airport : Option String := none
  out_of_base : Bool := false
  out_of_base_airport : Option String := none
  commute_to_iso : Option Int := none
  commute_from_iso : Option Int := none
  commute_id : String := ""
  parent_pairing_id : String := ""
  tracking_url : Option String := none
  ack : Option Ack := none
  editable : Bool := false
  can_hide : Bool := false
  is_current : Bool := false
deriving DecidableEq, Repr

/-- First run of digits matched at the start (`re.match(r'(\d+)', s)`). -/
def leadingDigits (s : String) : Option Nat :=
  (Parser.takeDigitRun s.data).map (fun r => pyInt r.1)

/-- First run of digits anywhere (`re.search(r'(\d+)', s)`). -/
def firstDigitRunAux : List Char → Option String
  | [] => none
  | c :: rest =>
      if c.isDigit then some (ofChars (c :: rest.takeWhile Char.isDigit))
      else firstDigitRunAux rest

/-- `re.search(r'(\d+)', s)` as a number. -/
def firstDigitNum (s : String) : Option Nat := (firstDigitRunAux s.data).map pyInt

/-- First window of three consecutive ASCII letters
(`re.search(r'([A-Z]{3})', s.upper())`). -/
def first3LettersAux : List Char → Option String
  | c1 :: c2 :: c3 :: rest =>
      if c1.isAlpha && c2.isAlpha && c3.isAlpha then some (ofChars [c1, c2, c3])
      else first3LettersAux (c2 :: c3 :: rest)
  | _ => none

/-- rows.py month_map. -/
def month_map : List (String × Nat) :=
  [("JAN", 1), ("FEB", 2), ("MAR", 3), ("APR", 4), ("MAY", 5), ("JUN", 6),
   ("JUL", 7), ("AUG", 8), ("SEP", 9), ("OCT", 10), ("NOV", 11), ("DEC", 12)]

/-- rows._parse_report_date: resolve a token like "15NOV" against the
hosting event's local start; any exception inside the `try` yields `None`,
including a missing reference datetime. -/
def parse_report_date (s : String) (referenceLocal : Option Int) : Option Int := do
  if s = "" then none
  else
    let ref ← referenceLocal
    let dayNum ← leadingDigits s
    let mon ← first3LettersAux (upperStr s).data
    let m ← (month_map.find? (fun kv => kv.1 = mon)).map (·.2)
    let refDate := ref.fdiv 1440
    let year0 := dateY refDate
    let refMonth := dateM refDate
    let year :=
      if m = 12 ∧ refMonth ≤ 2 then year0 - 1
      else if m ≤ 2 ∧ refMonth = 12 then year0 + 1
      else year0
    mkDate year m dayNum

/-- rows._parse_day_prefix: resolve a token like "SU16" against the hosting
event's local start; the whole body is one `try`, so any date-constructor
failure yields `None`. Embedded under the name `parse_day_pref`. -/
def parse_day_pref (s : String) (referenceLocal : Option Int) : Option Int := do
  if s = "" then none
  else
    let ref ← referenceLocal
    let dayNum ← firstDigitNum s
    let refDate := ref.fdiv 1440
    let year := dateY refDate
    let month := dateM refDate
    let refDay := dateD refDate
    let date0 ← mkDate year month dayNum
    if dayNum < 15 ∧ refDay > 15 then
      if month = 12 then mkDate (year + 1) 1 dayNum else mkDate year (month + 1) dayNum
    else if dayNum > 15 ∧ refDay < 15 then
      if month = 1 then mkDate (year - 1) 12 dayNum else mkDate year (month - 1) dayNum
    else pure date0

/-- Join strings with a separator (`"|".join`). -/
def joinStr (sep : String) : List String → String
  | [] => ""
  | [x] => x
  | x :: rest => x ++ sep ++ joinStr sep rest

/-- rows._day_signature (computed on the freshly parsed day). -/
def day_signature (d : Parser.DayParsed) : String :=
  let legSig := joinStr "|" (d.legs.map (fun leg =>
    leg.flight ++ ":" ++ leg.dep ++ ":" ++ leg.arr ++ ":" ++ leg.dep_time ++ ":" ++
      leg.arr_time))
  (d.report.getD "") ++ "||" ++ legSig

/-- The checked `dt.datetime(y, m, d, hh, mi)` builder used for combining a
date with an HHMM string: `Except.error` exactly where the constructor
raises `ValueError`. -/
def mkLocalDT (d : Int) (hh mi : Nat) : Except String Int :=
  if 24 ≤ hh then Except.error "hour must be in 0..23"
  else if 60 ≤ mi then Except.error "minute must be in 0..59"
  else Except.ok (d * 1440 + hh * 60 + mi)

/-- rows.combine_local (closure at lines 275-280): `None` on falsy inputs,
else `datetime(date, int(hhmm[:2]), int(hhmm[2:]))` after `ensure_hhmm`. -/
def combine_local (dateObj : Option Int) (hhmm : Option String) :
    Except String (Option Int) :=
  match dateObj, hhmm with
  | some d, some s =>
      if s = "" then Except.ok none
      else
        let h4 := Utils.ensure_hhmm s
        (mkLocalDT d (pyInt (strTake h4 2)) (pyInt (strDrop h4 2))).map some
  | _, _ => Except.ok none

/-- `dt.datetime` anchoring of a raw leg time (rows.py lines 326-331:
`int(t[:2])`, `int(t[2:])` with no `ensure_hhmm`). -/
def legDt (anchor : Int) (t : String) : Except String Int :=
  mkLocalDT anchor (pyInt (strTake t 2)) (pyInt (strDrop t 2))

/-- `str.replace("FFT", "")`. -/
def removeFFTAux : List Char → List Char
  | 'F' :: 'F' :: 'T' :: rest => removeFFTAux rest
  | c :: rest => c :: removeFFTAux rest
  | [] => []

/-- `re.sub(r"[^0-9]", "", s)` composed with the FFT strip (rows.py 344-345). -/
def flightDigits (s : String) : String :=
  ofChars ((removeFFTAux s.data).filter Char.isDigit)

end Rows

namespace Rows

/-- Initial grouping of events by summary / fallback uid prefix
(rows.py lines 129-136). -/
def initialGroups (events : List RawEvent) : List (String × List RawEvent) :=
  events.foldl (fun g e =>
    let pid0 := strip (e.summary.getD "")
    let pid := if pid0 ≠ "" then pid0 else "PAIR-" ++ strTake (e.uid.getD "") 8
    addGroup g pid e) []

/-- Did the previous event's last parsed leg arrive at the home base
(rows.py lines 150-161)? -/
def endedAtHome (homeBase : String) (prevEvent : RawEvent) : Bool :=
  let prevDays := (Parser.parse_pairing_days (prevEvent.description.getD "") none).days
  match prevDays.getLast? with
  | some lastDay =>
      match lastDay.legs.getLast? with
      | some lastLeg => upperStr lastLeg.arr = homeBase
      | none => false
  | none => false

/-- Split one pairing-ID group into batches at home-base returns
(rows.py lines 145-172). -/
def splitBatches (homeBase : String) (evs : List RawEvent) : List (List RawEvent) :=
  let step := fun (acc : List (List RawEvent) × List RawEvent) (e : RawEvent) =>
    match acc.2.getLast? with
    | none => (acc.1, [e])
    | some prevEvent =>
        if endedAtHome homeBase prevEvent then (acc.1 ++ [acc.2], [e])
        else (acc.1, acc.2 ++ [e])
  let fin := evs.foldl step ([], [])
  if fin.2 ≠ [] then fin.1 ++ [fin.2] else fin.1

/-- Chronological stable sort of a group's events
(`key = iso_to_dt(start_utc) or datetime.min`). -/
def sortEvents (evs : List RawEvent) : List RawEvent :=
  stableSortBy (fun a b => optTimeLe (Utils.iso_to_dt a.start_utc) (Utils.iso_to_dt b.start_utc)) evs

/-- final_groups (rows.py lines 138-172), as ordered (pairing-id, batch)
pairs: the counter-suffixed dict key `f"{pid}#{n}"` is only ever split
back into the pid by `rsplit('#', 1)`, so the pairs carry the pid
directly. -/
def finalGroups (homeBase : String) (events : List RawEvent) :
    List (String × List RawEvent) :=
  (initialGroups events).flatMap (fun g =>
    (splitBatches homeBase (sortEvents g.2)).map (fun b => (g.1, b)))

/-- One entry of `all_parsed_events` (rows.py lines 183-187). -/
def parsedOf (e : RawEvent) : RawEvent × Parser.ParsedDays × Option Int :=
  (e, Parser.parse_pairing_days (e.description.getD "") none,
    Utils.to_local (Utils.iso_to_dt e.start_utc))

/-- Find the first explicit report date (rows.py lines 189-200): the first
event whose first day has a truthy `report_date` that resolves; a token
that fails to resolve does not stop the scan. -/
def firstReportDateAux :
    List (RawEvent × Parser.ParsedDays × Option Int) → Option Int × Option String
  | [] => (none, none)
  | (_, parsed, esl) :: rest =>
      match parsed.days.head? with
      | some d0 =>
          if truthyS d0.report_date then
            match parse_report_date (d0.report_date.getD "") esl with
            | some rd => (some rd, d0.report)
            | none => firstReportDateAux rest
          else firstReportDateAux rest
      | none => firstReportDateAux rest

/-- Leg decoration at collection time (rows.py lines 234-270): numeric
flight (starred for deadheads), route/block display strings, deadhead
tracking placeholders. -/
def mkLegOut (is24 : Bool) (leg : Parser.Leg) : LegOut :=
  let flight :=
    if Parser.listIsPref (chars "FFT") leg.flight.data then leg.flight
    else
      match firstDigitRunAux leg.flight.data with
      | some n => if leg.deadhead then "*" ++ n else n
      | none => leg.flight
  let route := if leg.deadhead then "*DH " ++ leg.dep ++ "–" ++ leg.arr
               else leg.dep ++ "–" ++ leg.arr
  let block :=
    if leg.dep_time ≠ "" ∧ leg.arr_time ≠ "" then
      Utils.time_display (some leg.dep_time) is24 ++ " → " ++
        Utils.time_display (some leg.arr_time) is24
    else if leg.dep_time ≠ "" then Utils.time_display (some leg.dep_time) is24
    else ""
  let base : LegOut :=
    { flight := flight, dep := leg.dep, arr := leg.arr,
      dep_time := leg.dep_time, arr_time := leg.arr_time,
      deadhead := leg.deadhead, day_pref := leg.day_pref,
      route_display := route, block_display := block,
      dep_time_str := Utils.time_display (some leg.dep_time) is24,
      arr_time_str := Utils.time_display (some leg.arr_time) is24 }
  if leg.deadhead then
    { base with
      tracking_display := "Check FLICA"
      tracking_available := false
      tracking_message := "Check FLICA" }
  else base

/-- Accumulator of the day-collection loop (rows.py lines 202-272). -/
structure DayAcc where
  parsedDays : List DayOut := []
  seen : List String := []
  prefDates : List (String × Int) := []

/-- Process one parsed day within an event (rows.py lines 208-272):
signature dedup, date anchoring via day-prefix / memo / first report
date, and leg decoration. -/
def processDay (is24 : Bool) (firstReport : Option Int) (esl : Option Int)
    (acc : DayAcc) (d : Parser.DayParsed) : DayAcc :=
  let sig := day_signature d
  if acc.seen.contains sig then acc
  else
    let dayPref : Option String :=
      match d.legs.head? with
      | some fl => if truthyS fl.day_pref then fl.day_pref else none
      | none => none
    let dayDate0 : Option Int :=
      match dayPref with
      | some dp => parse_day_pref dp esl
      | none => none
    let prefDates' :=
      match dayPref, dayDate0 with
      | some dp, some dd => assocSet acc.prefDates dp dd
      | _, _ => acc.prefDates
    let dayDate1 :=
      match dayPref, dayDate0 with
      | some dp, none => (acc.prefDates.find? (fun kv => kv.1 = dp)).map (·.2)
      | _, dd => dd
    let dayDate := if acc.parsedDays = [] ∧ firstReport.isSome then firstReport
                   else dayDate1
    let dOut : DayOut :=
      { report := d.report, report_date := d.report_date,
        legs := d.legs.map (mkLegOut is24), release := d.release,
        hotel := d.hotel, actual_date := dayDate }
    { parsedDays := acc.parsedDays ++ [dOut], seen := acc.seen ++ [sig],
      prefDates := prefDates' }

/-- The full day-collection loop over all events. -/
def buildParsedDays (is24 : Bool) (firstReport : Option Int)
    (apes : List (RawEvent × Parser.ParsedDays × Option Int)) : List DayOut :=
  (apes.foldl (fun acc t =>
    match t with
    | (_, parsed, esl) => parsed.days.foldl (processDay is24 firstReport esl) acc)
    ({} : DayAcc)).parsedDays

/-- Pairing-level report resolution (rows.py lines 282-290). -/
def pairingReportLocal (parsedDays : List DayOut) (evsSorted : List RawEvent) :
    Except String (Option Int) :=
  match parsedDays.head? with
  | some d0 =>
      if d0.actual_date.isSome ∧ truthyS d0.report then
        combine_local d0.actual_date d0.report
      else if ¬ truthyS d0.report then
        Except.ok (match evsSorted.head? with
          | some e => Utils.to_local (Utils.iso_to_dt e.start_utc)
          | none => none)
      else Except.ok none
  | none =>
      Except.ok (match evsSorted.head? with
        | some e => Utils.to_local (Utils.iso_to_dt e.start_utc)
        | none => none)

/-- Pairing-level release resolution with the overnight day-rollover
correction (rows.py lines 292-309): the release date advances one day
only when the last leg arrives at or after 23:00 and the release time is
before 02:00. -/
def pairingReleaseLocal (parsedDays : List DayOut) (evsSorted : List RawEvent) :
    Except String (Option Int) :=
  match parsedDays.getLast? with
  | some dl =>
      if dl.actual_date.isSome ∧ truthyS dl.release then
        let releaseDate0 := dl.actual_date.getD 0
        let releaseDate :=
          match dl.legs.getLast? with
          | some lastLeg =>
              let lastArr := lastLeg.arr_time
              let rel := dl.release.getD ""
              if lastArr ≠ "" ∧ rel ≠ "" then
                if 23 ≤ pyInt (strTake lastArr 2) ∧ pyInt (strTake rel 2) < 2 then
                  releaseDate0 + 1
                else releaseDate0
              else releaseDate0
          | none => releaseDate0
        combine_local (some releaseDate) dl.release
      else if ¬ truthyS dl.release then
        Except.ok (match evsSorted.getLast? with
          | some e => Utils.to_local (Utils.iso_to_dt e.end_utc)
          | none => none)
      else Except.ok none
  | none =>
      Except.ok (match evsSorted.getLast? with
        | some e => Utils.to_local (Utils.iso_to_dt e.end_utc)
        | none => none)

/-- Per-leg flag pass (rows.py lines 321-357): anchored dep/arr datetimes
(overnight arrivals roll forward a day), the `done` flag, and the
tracking-availability fields for non-deadhead legs. -/
def processLegFlags (now : Int) (anchor : Option Int) (leg0 : LegOut) :
    Except String LegOut := do
  let depDt : Option Int ←
    match anchor with
    | some ad =>
        if leg0.dep_time ≠ "" then do
          let v ← legDt ad leg0.dep_time
          pure (some v)
        else pure none
    | none => pure none
  let arrDt : Option Int ←
    match anchor with
    | some ad =>
        if leg0.arr_time ≠ "" then do
          let v ← legDt ad leg0.arr_time
          pure (some (match depDt with
            | some dv => if v < dv then v + 1440 else v
            | none => v))
        else pure none
    | none => pure none
  let leg1 := { leg0 with done := match arrDt with
    | some a => decide (a ≤ now)
    | none => false }
  if ¬ leg1.deadhead then
    match depDt with
    | some dv =>
        if leg1.flight ≠ "" then
          let tad := dv - 1440
          let avail := decide (tad ≤ now)
          let leg2 := { leg1 with
            tracking_available := avail
            tracking_available_time := some tad }
          if avail then
            let fn := flightDigits leg2.flight
            if fn ≠ "" then
              pure { leg2 with
                tracking_display := "FFT" ++ fn
                tracking_url := some ("https://flightaware.com/live/flight/FFT" ++ fn)
                tracking_message := "Track →"
                tracking_clickable := true }
            else pure leg2
          else
            let msg := "Tracking available " ++ monthAbbrev (dateM (dv.fdiv 1440)) ++
              " " ++ pad2 (dateD (dv.fdiv 1440))
            pure { leg2 with
              tracking_message := msg
              tracking_display := msg }
        else
          pure { leg1 with
            tracking_available := false
            tracking_message := ""
            tracking_display := "" }
    | none =>
        pure { leg1 with
          tracking_available := false
          tracking_message := ""
          tracking_display := "" }
  else pure leg1

/-- Per-day flag pass (rows.py lines 317-375): decorated legs plus the
day-level report/release datetimes (a day release earlier than the day
report rolls forward one day). -/
def processDayFlags (now : Int) (idx : Nat) (d : DayOut) : Except String DayOut := do
  let anchor := d.actual_date
  let legs ← d.legs.mapM (processLegFlags now anchor)
  let dayReport ←
    if anchor.isSome ∧ truthyS d.report then combine_local anchor d.report
    else pure none
  let dayRelease0 ←
    if anchor.isSome ∧ truthyS d.release then combine_local anchor d.release
    else pure none
  let dayRelease :=
    match dayReport, dayRelease0 with
    | some rp, some rl => some (if rl < rp then rl + 1440 else rl)
    | _, _ => dayRelease0
  pure { d with
    legs := legs
    day_index := idx
    date_local_iso := dayReport
    day_report_dt := dayReport
    day_release_dt := dayRelease }

/-- Indexed traversal of the day list (`enumerate(parsed_days, start=1)`). -/
def processDaysFlagsAux (now : Int) (idx : Nat) :
    List DayOut → Except String (List DayOut)
  | [] => pure []
  | d :: rest => do
      let d' ← processDayFlags now idx d
      let rest' ← processDaysFlagsAux now (idx + 1) rest
      pure (d' :: rest')

/-- rows.py lines 377-383: day span of the pairing, clamped to ≥ 1. -/
def numDaysOf (rep rel : Option Int) : Nat :=
  match rep, rel with
  | some r, some l => (max 1 (l.fdiv 1440 - r.fdiv 1440 + 1)).toNat
  | _, _ => 1

end Rows

namespace Rows

/-- State of the layover-synthesis walk. -/
structure LayAcc where
  prevArr : Option String := none
  prevHotel : Option String := none
  outDays : List DayOut := []

/-- One day of the layover synthesis walk (rows.py lines 399-433). -/
def layoverStep (parsedDays : List DayOut) (numD : Nat) (startDate : Int)
    (legsByDate : List (Int × DayOut)) (acc : LayAcc) (dayNum : Nat) : LayAcc :=
  let cur := startDate + (dayNum : Int)
  match (legsByDate.find? (fun kv => kv.1 = cur)).map (·.2) with
  | some day =>
      let day' := { day with day_index := dayNum + 1 }
      let prevArr' :=
        match day'.legs.getLast? with
        | some l => some l.arr
        | none => acc.prevArr
      let prevHotel' := if truthyS day'.hotel then day'.hotel else acc.prevHotel
      { prevArr := prevArr', prevHotel := prevHotel',
        outDays := acc.outDays ++ [day'] }
  | none =>
      let loc :=
        match acc.prevArr with
        | some a => if a ≠ "" then a else "Unknown"
        | none => "Unknown"
      let lay : DayOut :=
        { actual_date := some cur, day_index := dayNum + 1, legs := [],
          is_layover := true, layover_location := some loc,
          no_flights_message := some "No flights scheduled",
          hotel := if acc.prevHotel.isSome then acc.prevHotel else none,
          report :=
            if dayNum = 0 ∧ truthyS (parsedDays.head?.bind (·.report)) then
              parsedDays.head?.bind (·.report)
            else none,
          release :=
            if dayNum = numD - 1 ∧ truthyS (parsedDays.getLast?.bind (·.release)) then
              parsedDays.getLast?.bind (·.release)
            else none }
      { acc with outDays := acc.outDays ++ [lay] }

/-- Layover synthesis for multi-day trips (rows.py lines 386-435): for each
date in the report-release span take the (last) leg-bearing day anchored
to it, else synthesize a layover placeholder carrying forward the last
arrival and hotel. -/
def layoverSynth (parsedDays : List DayOut) (daysWithFlags : List DayOut)
    (numD : Nat) (reportLocal : Option Int) : List DayOut :=
  if numD ≤ 1 ∨ daysWithFlags = [] then daysWithFlags
  else
    let legsByDate := daysWithFlags.foldl (fun m d =>
      match d.actual_date with
      | some ad => if d.legs ≠ [] then assocSetI m ad d else m
      | none => m) ([] : List (Int × DayOut))
    let startDate :=
      match reportLocal with
      | some r => r.fdiv 1440
      | none => 0
    ((List.range numD).foldl (layoverStep parsedDays numD startDate legsByDate)
      {}).outDays

/-- strftime `%a %b %d` of a local datetime (rows.py `dword`). -/
def dword (t : Int) : String :=
  let z := t.fdiv 1440
  weekdayName z ++ " " ++ monthAbbrev (dateM z) ++ " " ++ pad2 (dateD z)

/-- strftime `%H%M` of a local datetime (rows.py `hhmm_or_blank`). -/
def hhmmOfMin (t : Int) : String :=
  let m := (t.emod 1440).toNat
  pad2 (m / 60) ++ pad2 (m % 60)

/-- rows.py lines 446-447 display string (`dword` + 12-hour time). -/
def pairingDisp (t : Option Int) : String :=
  match t with
  | some v => dword v ++ " " ++ Utils.to_12h (hhmmOfMin v)
  | none => ""

/-- First departure airport over the final day list (rows.py lines 452-458). -/
def firstDepAirport (days : List DayOut) : Option String :=
  (days.find? (fun d =>
    match d.legs.head? with
    | some l => l.dep ≠ ""
    | none => false)).bind (fun d => d.legs.head?.map (fun l => upperStr l.dep))

/-- Out-of-base detection (rows.py lines 461-477): `^D\d` pairing ids are
Denver trips, `^[WXYZ]\d` are home pairings, otherwise compare the first
departure airport with the home base. Returns (is_home, airport). -/
def outOfBase (pairingId : String) (firstDep : Option String) (homeBase : String) :
    Bool × Option String :=
  let (isHome, oob) :=
    match pairingId.data with
    | c0 :: c1 :: _ =>
        if (c0 = 'D' ∨ c0 = 'd') ∧ c1.isDigit then (false, some "DEN")
        else if (c0.toUpper = 'W' ∨ c0.toUpper = 'X' ∨ c0.toUpper = 'Y' ∨
                 c0.toUpper = 'Z') ∧ c1.isDigit then (true, none)
        else (false, none)
    | _ => (false, none)
  let oob2 :=
    if ¬ truthyS oob ∧ ¬ isHome then
      match firstDep with
      | some fd => if fd ≠ "" ∧ fd ≠ homeBase then some fd else none
      | none => none
    else oob
  (isHome, oob2)

/-- Commute-time precomputation (rows.py lines 479-494). The
`pairing_release_local + timedelta(hours=1)` expression raises `TypeError`
when the release is unresolved, which the Except models. -/
def commuteIsos (oobAirport : Option String) (reportLocal releaseLocal : Option Int)
    (daysWithFlags : List DayOut) (homeBase : String) :
    Except String (Option Int × Option Int) :=
  if truthyS oobAirport ∧ reportLocal.isSome then
    let cto := reportLocal.map (fun r => r - 360)
    match daysWithFlags.getLast? with
    | some lastDay =>
        match lastDay.legs.getLast? with
        | some lastLeg =>
            if upperStr lastLeg.arr ≠ homeBase then
              match releaseLocal with
              | some rel => Except.ok (cto, some (rel + 60))
              | none =>
                  Except.error "unsupported operand type for NoneType and timedelta"
            else Except.ok (cto, none)
        | none => Except.ok (cto, none)
    | none => Except.ok (cto, none)
  else Except.ok (none, none)

/-- Resolve one final group into its pairing row
(rows.py lines 176-514, one iteration of the group loop). -/
def processGroup (now : Int) (is24 : Bool) (onlyReports : Bool) (homeBase : String)
    (pairingId : String) (evs : List RawEvent) : Except String Row := do
  let evsSorted := sortEvents evs
  let apes := evsSorted.map parsedOf
  let fr := firstReportDateAux apes
  let parsedDays0 := buildParsedDays is24 fr.1 apes
  let reportLocal ← pairingReportLocal parsedDays0 evsSorted
  let releaseLocal ← pairingReleaseLocal parsedDays0 evsSorted
  let inProgress : Bool :=
    match reportLocal, releaseLocal with
    | some r, some l => decide (r ≤ now) && decide (now ≤ l)
    | _, _ => false
  let parsedDays :=
    if onlyReports && ! inProgress then parsedDays0.filter (fun d => truthyS d.report)
    else parsedDays0
  let daysFlags ← processDaysFlagsAux now 1 parsedDays
  let numD := numDaysOf reportLocal releaseLocal
  let daysFinal := layoverSynth parsedDays daysFlags numD reportLocal
  let totalLegs := (daysFinal.map (fun d => d.legs.length)).sum
  let firstDep := firstDepAirport daysFinal
  let ob := outOfBase pairingId firstDep homeBase
  let cts ← commuteIsos ob.2 reportLocal releaseLocal daysFinal homeBase
  pure
    { kind := "pairing"
      pairing_id := pairingId
      in_progress := if inProgress then 1 else 0
      report_local_iso := reportLocal
      release_local_iso := releaseLocal
      display := { report_str := pairingDisp reportLocal,
                   release_str := pairingDisp releaseLocal }
      days := daysFinal
      num_days := numD
      uid := match evsSorted.head? with
        | some e => e.uid
        | none => none
      total_legs := totalLegs
      has_legs := decide (0 < totalLegs)
      first_dep_airport := firstDep
      out_of_base := truthyS ob.2
      out_of_base_airport := ob.2
      commute_to_iso := cts.1
      commute_from_iso := cts.2 }

/-- rows.py lines 551-555 and 609/664: `from db import get_commute_pref`
raises ImportError — src/db.py defines no `get_commute_pref` — so the
fallback `lambda x: None` is what gets bound, whatever the state of the
external preference store (`db`, the would-be SQLite contents) is. -/
def get_commute_pref (_db : String → Option CommutePref) (_commuteId : String) :
    Option CommutePref := none

/-- strftime `%a %b %d` + `%-I:%M %p` (commute display strings). -/
def fmt12 (t : Int) : String :=
  let m := (t.emod 1440).toNat
  let h := m / 60
  let mi := m % 60
  let h12 := if h % 12 = 0 then 12 else h % 12
  let ampm := if h < 12 then "AM" else "PM"
  dword t ++ " " ++ toString h12 ++ ":" ++ pad2 mi ++ " " ++ ampm

/-- The COMMUTE-TO row for an out-of-base pairing (rows.py lines 597-650):
always recomputed as report − 6h, regardless of saved preferences. -/
def commuteToRow (db : String → Option CommutePref) (p : Row) : Option Row :=
  if p.out_of_base ∧ truthyS p.out_of_base_airport then
    match p.report_local_iso with
    | some rep =>
        let cid := "COMMUTE-TO-" ++ p.pairing_id
        let saved := get_commute_pref db cid
        let cr := rep - 360
        some
          { kind := "commute"
            commute_id := cid
            parent_pairing_id := p.pairing_id
            pairing_id := cid
            report_local_iso := some cr
            release_local_iso := some rep
            tracking_url := saved.bind (·.tracking_url)
            display := { label := "Commute → " ++ (p.out_of_base_airport.getD ""),
                         report_str := fmt12 cr }
            ack := some { report_local_iso := some cr }
            editable := true
            can_hide := true }
    | none => none
  else none

/-- The COMMUTE-FROM row when a pairing ends away from the home base
(rows.py lines 655-702). -/
def commuteFromRow (db : String → Option CommutePref) (homeBase : String)
    (p : Row) : Option Row :=
  if p.out_of_base ∧ truthyS p.out_of_base_airport then
    match p.release_local_iso with
    | some rel =>
        match p.days.getLast? with
        | some lastDay =>
            match lastDay.legs.getLast? with
            | some lastLeg =>
                let la := upperStr lastLeg.arr
                if la ≠ "" ∧ la ≠ homeBase then
                  let cid := "COMMUTE-FROM-" ++ p.pairing_id
                  let saved := get_commute_pref db cid
                  let cstart :=
                    match saved.bind (·.report_local_iso) with
                    | some s => s
                    | none => rel + 60
                  let cend := cstart + 180
                  some
                    { kind := "commute"
                      commute_id := cid
                      parent_pairing_id := p.pairing_id
                      pairing_id := cid
                      report_local_iso := some cstart
                      release_local_iso := some cend
                      tracking_url := saved.bind (·.tracking_url)
                      display := { label := "Commute → " ++ homeBase,
                                   report_str := fmt12 cstart }
                      ack := some { report_local_iso := some cstart }
                      editable := true
                      can_hide := true }
                else none
            | none => none
        | none => none
    | none => none
  else none

/-- Per-pairing block of the all-events assembly (rows.py lines 557-702):
optional commute-to, the pairing, optional commute-from. -/
def eventBlock (homeBase : String) (db : String → Option CommutePref)
    (p : Row) : List Row :=
  (commuteToRow db p).toList ++ [p] ++ (commuteFromRow db homeBase p).toList

/-- `all_events` after the commute pass (rows.py lines 548-702). -/
def buildAllEvents (homeBase : String) (db : String → Option CommutePref)
    (ps : List Row) : List Row :=
  ps.flatMap (eventBlock homeBase db)

/-- Insert a non-flying event before the first later event
(rows.py lines 708-716). -/
def insertBeforeFirstLater (t : Int) (npe : Row) : List Row → List Row
  | [] => [npe]
  | e :: rest =>
      match e.report_local_iso with
      | some et =>
          if t < et then npe :: e :: rest else e :: insertBeforeFirstLater t npe rest
      | none => e :: insertBeforeFirstLater t npe rest

/-- Chronological insertion of one non-flying event (rows.py lines 704-716);
an event with no resolvable time is dropped. -/
def insertNpe (allEvents : List Row) (npe : Row) : List Row :=
  match Utils.iso_to_dt npe.report_local_iso with
  | some t => insertBeforeFirstLater t npe allEvents
  | none => allEvents

/-- Is any event currently in progress (rows.py lines 726-732)? -/
def anyInProgress (now : Int) (events : List Row) : Bool :=
  events.any (fun e =>
    match Utils.iso_to_dt e.report_local_iso, Utils.iso_to_dt e.release_local_iso with
    | some s, some en => decide (s ≤ now) && decide (now ≤ en)
    | _, _ => false)

/-- The leading OFF row literal (rows.py lines 737-745). -/
def mkLeadingOffRow (gapMin : Int) : Row :=
  { kind := "off"
    is_current := true
    display := { off_label := "OFF", off_duration := Utils.human_duration gapMin,
                 show_remaining := true } }

/-- The leading OFF row, emitted when no event is in progress and the first
event's report is more than an hour away (rows.py lines 721-745). -/
def leadingOffRow (now : Int) (events : List Row) : Option Row :=
  match events.head? with
  | none => none
  | some first =>
      match Utils.iso_to_dt first.report_local_iso with
      | some fr =>
          if ¬ anyInProgress now events ∧ now < fr ∧ 3600 < (fr - now) * 60 then
            some (mkLeadingOffRow (fr - now))
          else none
      | none => none

/-- An in-between OFF row literal (rows.py lines 760-768). -/
def mkGapOffRow (now t1 t2 : Int) : Row :=
  let cur := decide (t1 ≤ now) && decide (now < t2)
  { kind := "off"
    is_current := cur
    display := { off_label := "OFF", off_duration := Utils.human_duration (t2 - t1),
                 show_remaining := cur } }

/-- The OFF row between two consecutive events, when both bounds resolve,
the gap is forward, and it exceeds one hour (rows.py lines 751-768). -/
def gapOffRow (now : Int) (e1 e2 : Row) : Option Row :=
  match Utils.iso_to_dt e1.release_local_iso, Utils.iso_to_dt e2.report_local_iso with
  | some t1, some t2 =>
      if t1 < t2 ∧ 3600 < (t2 - t1) * 60 then some (mkGapOffRow now t1 t2) else none
  | _, _ => none

/-- The event walk emitting OFF rows between consecutive events
(rows.py lines 748-768). -/
def interleaveRows (now : Int) : List Row → List Row
  | [] => []
  | [e] => [e]
  | e1 :: e2 :: rest =>
      e1 :: ((gapOffRow now e1 e2).toList ++ interleaveRows now (e2 :: rest))

/-- The final row assembly (rows.py lines 718-770). -/
def finalRows (now : Int) (events : List Row) : List Row :=
  (leadingOffRow now events).toList ++ interleaveRows now events

/-- The include_off_rows phase (rows.py lines 521-770): split leg-bearing
pairings from non-flying events, add commute rows, merge the non-flying
events chronologically, then interleave OFF rows. -/
def offPhase (now : Int) (homeBase : String) (db : String → Option CommutePref)
    (pairings : List Row) : List Row :=
  let hasLegsP := fun (p : Row) => p.days.any (fun d => d.legs ≠ [])
  let actual := pairings.filter hasLegsP
  let nonPairing := pairings.filter (fun p => ¬ hasLegsP p)
  let allEvents := nonPairing.foldl insertNpe (buildAllEvents homeBase db actual)
  finalRows now allEvents

/-- rows.build_pairing_rows: the single public entry point. `now` is the
wall clock `dt.datetime.now(LOCAL_TZ)` reads; `db` is the external
commute-preference store the (dead) `get_commute_pref` import would
consult. -/
def build_pairing_rows (events : List RawEvent) (is24 : Bool) (onlyReports : Bool)
    (includeOffRows : Bool) (homeBase : String) (now : Int)
    (db : String → Option CommutePref) : Except String (List Row) := do
  let groups := finalGroups homeBase events
  let pairings0 ← groups.mapM (fun g => processGroup now is24 onlyReports homeBase g.1 g.2)
  let pairings := stableSortBy (fun a b => optTimeLe a.report_local_iso b.report_local_iso)
    pairings0
  if ¬ includeOffRows then pure pairings
  else pure (offPhase now homeBase db pairings)

end Rows

namespace Rows

/-- The OFF rows of a row list (for stating OFF-row properties). -/
def offRowsOf (rows : List Row) : List Row := rows.filter (fun r => r.kind = "off")

end Rows

namespace PairingBuilder

/-- The one-event pairing the build_pairings walk opens for an event
(statement helper naming the record built at lines 263-269/275-280). -/
def singletonPairing (pid : String) (bases : List String) (e : ParsedEvent) : Pairing :=
  { pairing_id := pid, base_airports := bases, events := [e], is_pairing := true }

end PairingBuilder

/-- An empty commute-preference store (no saved preferences). -/
def db0 : String → Option Rows.CommutePref := fun _ => none

/-- Concrete event: a single-day W-pairing whose leg lands (and therefore
releases) earlier in the day than its own report time. -/
def e1C1 : RawEvent :=
  { uid := some "u1", summary := some "W1234",
    description := some "Report: 15NOV 0800\n1596 DFW-ORD 0300-0400",
    start_utc := some (localMinutes 2025 11 15 0 0 + 360),
    end_utc := some (localMinutes 2025 11 15 12 0 + 360) }

/-- A wall-clock instant well before `e1C1` (2025-11-01 00:00 local). -/
def nowC1 : Int := localMinutes 2025 11 1 0 0

/-- Concrete event: a malformed calendar entry whose report time has an
out-of-range hour (`2500`), which REPORT_RE happily captures. -/
def e2C2 : RawEvent :=
  { uid := some "u1", summary := some "W1234",
    description := some "Report: 15NOV 2500",
    start_utc := some (localMinutes 2025 11 10 6 0 + 360),
    end_utc := some (localMinutes 2025 11 10 18 0 + 360) }

/-- Concrete event: morning pairing W1000 (reports 08:00, releases 10:15). -/
def eA : RawEvent :=
  { uid := some "ua", summary := some "W1000",
    description := some "Report: 10JAN 0800\n1001 DFW-MSY 0900-1000",
    start_utc := some (localMinutes 2026 1 10 6 0 + 360),
    end_utc := some (localMinutes 2026 1 10 11 0 + 360) }

/-- Concrete event: evening pairing W2000 (reports 22:00, releases 23:45). -/
def eB : RawEvent :=
  { uid := some "ub", summary := some "W2000",
    description := some "Report: 10JAN 2200\n2002 DFW-MSY 2300-2330",
    start_utc := some (localMinutes 2026 1 10 20 0 + 360),
    end_utc := some (localMinutes 2026 1 11 0 30 + 360) }

/-- Concrete event: a non-flying CBT entry (no parseable legs) between
`eA`'s release and `eB`'s report (14:00-15:00 local). -/
def eN : RawEvent :=
  { uid := some "un", summary := some "CBT", description := some "",
    start_utc := some (localMinutes 2026 1 10 14 0 + 360),
    end_utc := some (localMinutes 2026 1 10 15 0 + 360) }

/-- A wall-clock instant 30 minutes before `eA`'s report. -/
def nowC3 : Int := localMinutes 2026 1 10 7 30

/-- Concrete event: an out-of-base Denver pairing (D-prefix), reporting
09:00 local with one DEN-ABQ leg. -/
def eP : RawEvent :=
  { uid := some "up", summary := some "D3301",
    description := some "Report: 12JAN 0900\n3301 DEN-ABQ 1000-1100",
    start_utc := some (localMinutes 2026 1 12 7 0 + 360),
    end_utc := some (localMinutes 2026 1 12 12 0 + 360) }

/-- Concrete event: a non-flying CBT entry inside `eP`'s six-hour commute
window (05:00-06:00 local, between commute start 03:00 and report 09:00). -/
def eN2 : RawEvent :=
  { uid := some "un2", summary := some "CBT", description := some "",
    start_utc := some (localMinutes 2026 1 12 5 0 + 360),
    end_utc := some (localMinutes 2026 1 12 6 0 + 360) }

/-- A wall-clock instant one hour before `eP`'s commute row starts. -/
def nowC10 : Int := localMinutes 2026 1 12 2 0

/-- Concrete event: first W1234 occurrence, one leg MSY-DFW (a base
return closing the trip). -/
def r1C6 : RawEvent :=
  { uid := some "x1", summary := some "W1234",
    description := some "Report: 10JAN 0800\n1001 MSY-DFW 0900-1000",
    start_utc := some (localMinutes 2026 1 10 6 0 + 360),
    end_utc := some (localMinutes 2026 1 10 11 0 + 360) }

/-- Concrete event: second W1234 occurrence ten days later, one leg
DFW-MSY. -/
def r2C6 : RawEvent :=
  { uid := some "x2", summary := some "W1234",
    description := some "Report: 20JAN 0800\n1002 DFW-MSY 0900-1000",
    start_utc := some (localMinutes 2026 1 20 6 0 + 360),
    end_utc := some (localMinutes 2026 1 20 11 0 + 360) }

/-- Concrete description for the parser round-trip witness. -/
def c5text : String := "Report: 0700\n1596 DFW-ORD 0700-0900"

/-- The day `parse_pairing_days` yields for `c5text`. -/
def c5day : Parser.DayParsed :=
  ((Parser.parse_pairing_days c5text none).days.head?).getD
    { report := none, report_date := none, legs := [], release := none, hotel := none }

/-- The last leg of `c5day`. -/
def c5leg : Parser.Leg :=
  (c5day.legs.getLast?).getD
    { flight := "", dep := "", arr := "", dep_time := "", arr_time := "",
      deadhead := false, day_pref := none }

/-- Concrete rows for the OFF-row witnesses: a pairing releasing at minute
100. -/
def w7e1 : Rows.Row := { kind := "pairing", release_local_iso := some 100 }

/-- A pairing reporting at minute 300. -/
def w7e2 : Rows.Row := { kind := "pairing", report_local_iso := some 300 }

/-- Concrete rows for the C3 witness: pairing spanning minutes 0-100. -/
def w3e1 : Rows.Row :=
  { kind := "pairing", report_local_iso := some 0, release_local_iso := some 100 }

/-- Non-flying row spanning minutes 300-360. -/
def w3x : Rows.Row :=
  { kind := "pairing", report_local_iso := some 300, release_local_iso := some 360 }

/-- Pairing spanning minutes 600-700. -/
def w3e2 : Rows.Row :=
  { kind := "pairing", report_local_iso := some 600, release_local_iso := some 700 }

/-- Concrete row for the C8 witness: a pairing spanning minutes 100-200. -/
def w8row : Rows.Row :=
  { kind := "pairing", report_local_iso := some 100, release_local_iso := some 200 }

/-- Concrete out-of-base pairing row for the C10 witness. -/
def w10row : Rows.Row :=
  { kind := "pairing", pairing_id := "D1", out_of_base := true,
    out_of_base_airport := some "DEN", report_local_iso := some 1000,
    release_local_iso := some 1500 }

/-- Concrete last day for the C1 witness (one leg arriving 23:50, release
00:05, anchored to day 0 with a 23:30 report). -/
def w1day : Rows.DayOut :=
  { report := some "2330", release := some "0005", actual_date := some 0,
    legs := [{ arr_time := "2350" }] }

-- Decidable equality for `Except` results (used to evaluate the concrete
-- scenarios).
deriving instance DecidableEq for Except

/-- Claim C2 (code_bug evidence): on a malformed calendar entry whose
report time is `2500`, `build_pairing_rows` raises `ValueError` from the
`datetime` constructor inside `combine_local` instead of absorbing the
bad value — the regex `(\d{3,4})` accepts any 3-4 digits but the
time-combination step is not total on them. -/
theorem claim2_bug :
    Rows.build_pairing_rows [e2C2] true false false "DFW" nowC1 db0 =
      Except.error "hour must be in 0..23" := by decide

/-- Claim C9 (counterexample): a 30-hour gap is rendered `"30h"`, not the
`"{d}d"` / `"{d}d {h}h"` form the claim requires for durations at or
above 24 hours (`human_duration` switches to day rendering only at 48h). -/
theorem claim9_counterexample :
    Utils.human_duration 1800 = "30h" ∧
      Utils.human_duration 1800 ≠ "1d" ∧ Utils.human_duration 1800 ≠ "1d 6h" := by
  decide

/-- Claim C9 (amended): for a non-negative duration, below 48 hours the
rendering is the total floor-hour count `"{h}h"` (no minutes variant
exists anywhere), and at or above 48 hours it is `"{d}d {h}h"`. -/
theorem claim9_amended (tdMin : Int) (h : 0 ≤ tdMin) :
    (tdMin < 48 * 60 → Utils.human_duration tdMin = toString (tdMin.fdiv 60) ++ "h") ∧
    (48 * 60 ≤ tdMin →
      Utils.human_duration tdMin =
        toString ((tdMin.fdiv 60).fdiv 24) ++ "d " ++
          toString ((tdMin.fdiv 60).emod 24) ++ "h") := by
  have h60 : tdMin.fdiv 60 = tdMin / 60 := Int.fdiv_eq_ediv _ (by norm_num)
  have hnn : 0 ≤ tdMin / 60 := Int.ediv_nonneg h (by norm_num)
  constructor
  · intro hlt
    simp only [Utils.human_duration, h60, max_eq_right hnn]
    rw [if_neg (by omega)]
  · intro hge
    simp only [Utils.human_duration, h60, max_eq_right hnn]
    rw [if_pos (by omega)]

/-- Claim C9 (witness for the amended theorem at 30 hours). -/
theorem claim9_witness :
    (0 : Int) ≤ 1800 ∧
      Utils.human_duration 1800 = toString ((1800 : Int).fdiv 60) ++ "h" :=
  ⟨by decide, (claim9_amended 1800 (by decide)).1 (by decide)⟩

/-- Claim C1 (counterexample): `e1C1` resolves with both timestamps
non-null but release (04:15) strictly before report (08:00) — the
day-rollover correction fires only when the last arrival hour is ≥ 23 and
the release hour < 2, so the claimed invariant fails. -/
theorem claim1_counterexample :
    (Rows.build_pairing_rows [e1C1] true false false "DFW" nowC1 db0).map
        (fun rows => rows.map (fun r => (r.report_local_iso, r.release_local_iso))) =
      Except.ok [(some (localMinutes 2025 11 15 8 0), some (localMinutes 2025 11 15 4 15))] ∧
    localMinutes 2025 11 15 4 15 < localMinutes 2025 11 15 8 0 := by decide

/-- Claim C3 (counterexample): inserting the non-flying event `eN` between
pairings `eA` and `eB` replaces the single 11-hour OFF row with 3-hour
and 7-hour OFF rows around `eN` — the OFF rows with and without the extra
event are not identical. -/
theorem claim3_counterexample :
    (Rows.build_pairing_rows [eA, eB] true false true "DFW" nowC3 db0).map
        (fun rows => (Rows.offRowsOf rows).map (fun r => r.display.off_duration)) =
      Except.ok ["11h"] ∧
    (Rows.build_pairing_rows [eA, eN, eB] true false true "DFW" nowC3 db0).map
        (fun rows => (Rows.offRowsOf rows).map (fun r => r.display.off_duration)) =
      Except.ok ["3h", "7h"] := by decide

/-- Claim C8 (counterexample): with `now` 30 minutes before the first
pairing's report and nothing in progress, `build_pairing_rows` with
include_off_rows=true emits no leading OFF row at all (the code requires
the gap to exceed one hour, which the claim omits). -/
theorem claim8_counterexample :
    (Rows.build_pairing_rows [eA] true false true "DFW" nowC3 db0).map
        (fun rows => (rows.map (fun r => r.kind),
          rows.head?.bind (fun r => r.report_local_iso),
          Rows.anyInProgress nowC3 rows)) =
      Except.ok (["pairing"], some (nowC3 + 30), false) := by decide

/-- Claim C10 (counterexample): for the out-of-base pairing `eP`, the
commute row is emitted, but the non-flying event `eN2` (whose timestamp
falls inside the six-hour commute window) and an OFF row are inserted
between the commute row and the pairing row, so the commute row is not
immediately before the pairing's row. -/
theorem claim10_counterexample :
    (Rows.build_pairing_rows [eP, eN2] true false true "DFW" nowC10 db0).map
        (fun rows => rows.map (fun r => (r.kind, r.pairing_id))) =
      Except.ok [("commute", "COMMUTE-TO-D3301"), ("pairing", "CBT"), ("off", ""),
        ("pairing", "D3301"), ("commute", "COMMUTE-FROM-D3301")] := by decide

/-- Claim C4: two runs of `build_pairing_rows` on identical event lists,
flags, and wall-clock instant produce identical row lists. The only
ambient state the cited code would consult is the commute-preference
store, and its read is dead (`from db import get_commute_pref` fails, the
`lambda x: None` fallback is bound), so the output is independent of that
store in every configuration — the computation is a pure function of
(events, flags, now). -/
theorem claim4_db_independence (events : List RawEvent) (is24 onlyReports includeOff : Bool)
    (homeBase : String) (now : Int) (db1 db2 : String → Option Rows.CommutePref) :
    Rows.build_pairing_rows events is24 onlyReports includeOff homeBase now db1 =
      Rows.build_pairing_rows events is24 onlyReports includeOff homeBase now db2 := rfl

/-- Claim C5: for every day `parse_pairing_days` emits, the release field
is exactly the last leg's arrival time plus 15 minutes in HHMM arithmetic
modulo 24 hours, and it is null when the day has no legs. -/
theorem claim5_release_roundtrip (text : String) (loc : Option String)
    (d : Parser.DayParsed) (hd : d ∈ (Parser.parse_pairing_days text loc).days) :
    (d.legs = [] → d.release = none) ∧
    (∀ lst, d.legs.getLast? = some lst →
      d.release = some (Parser.hhmm_from_mins (Parser.mins_from_hhmm lst.arr_time + 15))) := by
  simp only [Parser.parse_pairing_days] at hd
  split at hd
  · simp only [List.mem_singleton] at hd
    subst hd
    refine ⟨fun hleg => ?_, fun lst hlst => ?_⟩
    · simp only at hleg ⊢
      rw [hleg]
      rfl
    · simp only at hlst ⊢
      rw [hlst]
  · simp at hd

/-- Claim C5 (witness): the concrete description `c5text` yields a day
whose release is its last leg's arrival (0900) plus 15 minutes. -/
theorem claim5_witness :
    c5day ∈ (Parser.parse_pairing_days c5text none).days ∧
      c5day.release = some (Parser.hhmm_from_mins (Parser.mins_from_hhmm c5leg.arr_time + 15)) :=
  ⟨by decide, (claim5_release_roundtrip c5text none c5day (by decide)).2 c5leg (by decide)⟩

/-- Inversion for the in-between OFF row emission: a `some` result means
both bounds resolved, the gap is forward and exceeds 60 minutes, and the
row is the OFF literal for those bounds. -/
theorem gapOffRow_eq_some {now : Int} {e1 e2 r : Rows.Row}
    (h : Rows.gapOffRow now e1 e2 = some r) :
    ∃ t1 t2, e1.release_local_iso = some t1 ∧ e2.report_local_iso = some t2 ∧
      t1 < t2 ∧ 60 < t2 - t1 ∧ r = Rows.mkGapOffRow now t1 t2 := by
  unfold Rows.gapOffRow Utils.iso_to_dt at h
  cases hrel : e1.release_local_iso with
  | none => simp [hrel] at h
  | some t1 =>
      cases hrep : e2.report_local_iso with
      | none => simp [hrel, hrep] at h
      | some t2 =>
          simp only [hrel, hrep] at h
          split at h
          · next hc =>
              refine ⟨t1, t2, rfl, rfl, hc.1, by omega, ?_⟩
              exact (Option.some.inj h).symm
          · cases h

/-- Every row of the between-events walk is either one of the events or an
emitted gap OFF row. -/
theorem mem_interleaveRows {now : Int} {r : Rows.Row} :
    ∀ {es : List Rows.Row}, r ∈ Rows.interleaveRows now es →
      r ∈ es ∨ ∃ e1 e2, Rows.gapOffRow now e1 e2 = some r := by
  intro es
  induction es with
  | nil => intro h; simp [Rows.interleaveRows] at h
  | cons e rest ih =>
      cases rest with
      | nil =>
          intro h
          simp only [Rows.interleaveRows, List.mem_singleton] at h
          exact Or.inl (by simp [h])
      | cons e2 rest2 =>
          intro h
          simp only [Rows.interleaveRows] at h
          rcases List.mem_cons.mp h with h1 | h2
          · exact Or.inl (by simp [h1])
          · rcases List.mem_append.mp h2 with hg | hi
            · refine Or.inr ⟨e, e2, ?_⟩
              cases hgo : Rows.gapOffRow now e e2 with
              | none => rw [hgo] at hg; cases hg
              | some r' =>
                  rw [hgo] at hg
                  simp only [Option.toList_some, List.mem_singleton] at hg
                  rw [hg]
            · rcases ih hi with hmem | hex
              · exact Or.inl (List.mem_cons_of_mem _ hmem)
              · exact Or.inr hex

/-- Claim C7: every OFF row the between-events walk emits over a list of
non-OFF event rows corresponds to a strictly positive gap — the next
event's report strictly after this event's release — and a gap of sixty
minutes or less is never emitted. -/
theorem claim7_off_gap_positive (now : Int) (es : List Rows.Row) (r : Rows.Row)
    (hk : ∀ e ∈ es, e.kind ≠ "off") (hr : r ∈ Rows.interleaveRows now es)
    (hoff : r.kind = "off") :
    ∃ e1 e2 t1 t2, e1.release_local_iso = some t1 ∧ e2.report_local_iso = some t2 ∧
      t1 < t2 ∧ 60 < t2 - t1 ∧ Rows.gapOffRow now e1 e2 = some r := by
  rcases mem_interleaveRows hr with hmem | ⟨e1, e2, hg⟩
  · exact absurd hoff (hk r hmem)
  · obtain ⟨t1, t2, h1, h2, h3, h4, _⟩ := gapOffRow_eq_some hg
    exact ⟨e1, e2, t1, t2, h1, h2, h3, h4, hg⟩

/-- Claim C7 (witness): the OFF row between a release at minute 100 and a
report at minute 300. -/
theorem claim7_witness :
    ∃ e1 e2 t1 t2, e1.release_local_iso = some t1 ∧ e2.report_local_iso = some t2 ∧
      t1 < t2 ∧ 60 < t2 - t1 ∧
      Rows.gapOffRow 0 e1 e2 = some (Rows.mkGapOffRow 0 100 300) :=
  claim7_off_gap_positive 0 [w7e1, w7e2] (Rows.mkGapOffRow 0 100 300)
    (by decide) (by decide) (by decide)

/-- Claim C8 (amended): whenever the current time precedes the first
event's report by MORE THAN ONE HOUR and no event is in progress, the
first emitted row is the leading OFF row, flagged `is_current` with the
remaining sub-display, whose duration is first report minus now. -/
theorem claim8_amended (now : Int) (events : List Rows.Row) (e0 : Rows.Row) (t : Int)
    (h0 : events.head? = some e0) (ht : e0.report_local_iso = some t)
    (hip : Rows.anyInProgress now events = false) (hgap : now + 60 < t) :
    (Rows.finalRows now events).head? = some (Rows.mkLeadingOffRow (t - now)) := by
  have hlead : Rows.leadingOffRow now events = some (Rows.mkLeadingOffRow (t - now)) := by
    simp only [Rows.leadingOffRow, h0, Utils.iso_to_dt, ht]
    rw [if_pos]
    exact ⟨by simp [hip], by omega, by omega⟩
  simp [Rows.finalRows, hlead]

/-- Claim C8 (witness for the amended theorem): a single pairing reporting
at minute 100 with `now = 0` yields a leading OFF row of 100 minutes. -/
theorem claim8_witness :
    (Rows.finalRows 0 [w8row]).head? = some (Rows.mkLeadingOffRow (100 - 0)) :=
  claim8_amended 0 [w8row] w8row 100 (by rfl) (by rfl) (by decide) (by decide)

/-- Emitted gap OFF rows always carry kind "off". -/
theorem gapOffRow_kind {now : Int} {e1 e2 r : Rows.Row}
    (h : Rows.gapOffRow now e1 e2 = some r) : r.kind = "off" := by
  obtain ⟨t1, t2, _, _, _, _, hr⟩ := gapOffRow_eq_some h
  rw [hr]; rfl

/-- The OFF filter keeps every row of an emitted gap option. -/
theorem filter_gapOff_toList (now : Int) (a b : Rows.Row) :
    (Rows.gapOffRow now a b).toList.filter (fun r => r.kind = "off") =
      (Rows.gapOffRow now a b).toList := by
  cases hg : Rows.gapOffRow now a b with
  | none => simp
  | some r' => simp [gapOffRow_kind hg]

/-- Claim C3 (amended): non-flying events participate in the OFF-gap walk
like any other event: with three events the emitted OFF rows are exactly
the gap rows of the two adjacent sub-gaps, and with the middle event
removed they are exactly the gap row of the single outer gap — so an
inserted non-flying event splits (and thereby alters) the OFF row for the
gap between two pairings. -/
theorem claim3_amended (now : Int) (e1 x e2 : Rows.Row)
    (h1 : Rows.leadingOffRow now [e1, x, e2] = none)
    (h2 : Rows.leadingOffRow now [e1, e2] = none)
    (k1 : e1.kind ≠ "off") (kx : x.kind ≠ "off") (k2 : e2.kind ≠ "off") :
    Rows.offRowsOf (Rows.finalRows now [e1, x, e2]) =
      (Rows.gapOffRow now e1 x).toList ++ (Rows.gapOffRow now x e2).toList ∧
    Rows.offRowsOf (Rows.finalRows now [e1, e2]) =
      (Rows.gapOffRow now e1 e2).toList := by
  constructor
  · simp only [Rows.finalRows, h1, Option.toList_none, List.nil_append,
      Rows.interleaveRows, Rows.offRowsOf]
    simp [List.filter_append, List.filter_cons, k1, kx, k2, filter_gapOff_toList]
  · simp only [Rows.finalRows, h2, Option.toList_none, List.nil_append,
      Rows.interleaveRows, Rows.offRowsOf]
    simp [List.filter_append, List.filter_cons, k1, k2, filter_gapOff_toList]

/-- Claim C3 (witness for the amended theorem): three concrete rows with
`now` 30 minutes before the first report. -/
theorem claim3_witness :
    Rows.offRowsOf (Rows.finalRows (-30) [w3e1, w3x, w3e2]) =
      (Rows.gapOffRow (-30) w3e1 w3x).toList ++ (Rows.gapOffRow (-30) w3x w3e2).toList ∧
    Rows.offRowsOf (Rows.finalRows (-30) [w3e1, w3e2]) =
      (Rows.gapOffRow (-30) w3e1 w3e2).toList :=
  claim3_amended (-30) w3e1 w3x w3e2 (by decide) (by decide) (by decide) (by decide)
    (by decide)

/-- `ensure_hhmm` is the identity on 4-character strings. -/
theorem ensure_hhmm_len4 {s : String} (h : s.length = 4) : Utils.ensure_hhmm s = s := by
  unfold Utils.ensure_hhmm
  have hne : s ≠ "" := by
    intro he
    rw [he] at h
    simp at h
  rw [if_neg hne, if_neg (by omega)]

/-- Claim C1 (amended): the day-rollover correction guarantees
`release_local > report_local` whenever it fires — for a day anchored to
date `d` whose last leg arrives at hour ≥ 23 with a release before 02:00,
the release is pushed to day `d + 1` and therefore lies strictly after
any same-day report. Outside this window the invariant is not enforced
(see the counterexample). -/
theorem claim1_amended (day : Rows.DayOut) (evs : List RawEvent) (d : Int)
    (rep rel arr : String) (lastLeg : Rows.LegOut)
    (had : day.actual_date = some d) (hrep : day.report = some rep)
    (hrepne : rep ≠ "")
    (hrel : day.release = some rel) (hlen : rel.length = 4)
    (hlegs : day.legs.getLast? = some lastLeg) (harr : lastLeg.arr_time = arr)
    (harrne : arr ≠ "")
    (hro1 : 23 ≤ pyInt (strTake arr 2)) (hro2 : pyInt (strTake rel 2) < 2)
    (hrh : pyInt (strTake (Utils.ensure_hhmm rep) 2) ≤ 23)
    (hrm : pyInt (strDrop (Utils.ensure_hhmm rep) 2) ≤ 59)
    (hrelm : pyInt (strDrop rel 2) ≤ 59) :
    ∃ r l, Rows.pairingReportLocal [day] evs = Except.ok (some r) ∧
      Rows.pairingReleaseLocal [day] evs = Except.ok (some l) ∧ r < l := by
  have hrelne : rel ≠ "" := by
    intro he
    rw [he] at hlen
    simp at hlen
  have hcr : Rows.combine_local day.actual_date day.report =
      Except.ok (some (d * 1440 + (pyInt (strTake (Utils.ensure_hhmm rep) 2) : Int) * 60 +
        (pyInt (strDrop (Utils.ensure_hhmm rep) 2) : Int))) := by
    rw [had, hrep]
    simp only [Rows.combine_local, Rows.mkLocalDT]
    rw [if_neg hrepne, if_neg (by omega), if_neg (by omega)]
    rfl
  have hcl : Rows.combine_local (some (d + 1)) (some rel) =
      Except.ok (some ((d + 1) * 1440 + (pyInt (strTake rel 2) : Int) * 60 +
        (pyInt (strDrop rel 2) : Int))) := by
    simp only [Rows.combine_local, Rows.mkLocalDT, ensure_hhmm_len4 hlen]
    rw [if_neg hrelne, if_neg (by omega), if_neg (by omega)]
    rfl
  refine ⟨d * 1440 + (pyInt (strTake (Utils.ensure_hhmm rep) 2) : Int) * 60 +
      (pyInt (strDrop (Utils.ensure_hhmm rep) 2) : Int),
    (d + 1) * 1440 + (pyInt (strTake rel 2) : Int) * 60 +
      (pyInt (strDrop rel 2) : Int), ?_, ?_, ?_⟩
  · simp only [Rows.pairingReportLocal, List.head?_cons]
    rw [if_pos ⟨by rw [had]; rfl, by simp [truthyS, hrep, hrepne]⟩]
    exact hcr
  · have hglast : [day].getLast? = some day := rfl
    simp only [Rows.pairingReleaseLocal, hglast]
    rw [if_pos ⟨by rw [had]; rfl, by simp [truthyS, hrel, hrelne]⟩]
    simp only [hlegs, harr, had, hrel, Option.getD_some]
    rw [if_pos ⟨harrne, hrelne⟩, if_pos ⟨hro1, hro2⟩]
    exact hcl
  · omega

/-- Claim C1 (witness for the amended theorem): report 23:30, last arrival
23:50, release 00:05 on day 0 — the rollover yields a release after the
report. -/
theorem claim1_witness :
    ∃ r l, Rows.pairingReportLocal [w1day] [] = Except.ok (some r) ∧
      Rows.pairingReleaseLocal [w1day] [] = Except.ok (some l) ∧ r < l :=
  claim1_amended w1day [] 0 "2330" "0005" "2350" ({ arr_time := "2350" } : Rows.LegOut)
    (by rfl) (by rfl) (by decide) (by rfl) (by decide) (by rfl) (by rfl) (by decide)
    (by decide) (by decide) (by decide) (by decide) (by decide)

/-- Claim C10 (amended): for every out-of-base pairing row with a resolved
report time, the assembled event sequence contains a kind-"commute" row
(a kind absent from the spec's Row union) directly before the pairing,
whose report is the pairing's report minus 6 hours and whose release is
the pairing's report. (In the final row list a non-flying event falling
inside the commute window may still be inserted between the two — see the
counterexample.) -/
theorem claim10_amended (homeBase : String) (db : String → Option Rows.CommutePref)
    (ps : List Rows.Row) (p : Rows.Row) (a : String) (t : Int)
    (hp : p ∈ ps) (hob : p.out_of_base = true) (hoa : p.out_of_base_airport = some a)
    (hane : a ≠ "") (ht : p.report_local_iso = some t) :
    ∃ pre post c, Rows.buildAllEvents homeBase db ps = pre ++ c :: p :: post ∧
      c.kind = "commute" ∧ c.parent_pairing_id = p.pairing_id ∧
      c.report_local_iso = some (t - 360) ∧ c.release_local_iso = some t := by
  obtain ⟨l1, l2, rfl⟩ := List.append_of_mem hp
  have hc : ∃ c, Rows.commuteToRow db p = some c ∧ c.kind = "commute" ∧
      c.parent_pairing_id = p.pairing_id ∧ c.report_local_iso = some (t - 360) ∧
      c.release_local_iso = some t := by
    unfold Rows.commuteToRow
    rw [if_pos ⟨hob, by simp [truthyS, hoa, hane]⟩]
    simp only [ht]
    exact ⟨_, rfl, rfl, rfl, rfl, rfl⟩
  obtain ⟨c, hcsome, hk, hpar, hcr, hcl⟩ := hc
  refine ⟨(l1.flatMap (Rows.eventBlock homeBase db)),
    (Rows.commuteFromRow db homeBase p).toList ++ l2.flatMap (Rows.eventBlock homeBase db),
    c, ?_, hk, hpar, hcr, hcl⟩
  simp [Rows.buildAllEvents, Rows.eventBlock, hcsome]

/-- Claim C10 (witness for the amended theorem). -/
theorem claim10_witness :
    ∃ pre post c, Rows.buildAllEvents "DFW" db0 [w10row] = pre ++ c :: w10row :: post ∧
      c.kind = "commute" ∧ c.parent_pairing_id = w10row.pairing_id ∧
      c.report_local_iso = some (1000 - 360) ∧ c.release_local_iso = some 1000 :=
  claim10_amended "DFW" db0 [w10row] w10row "DEN" 1000 (by decide) (by rfl) (by rfl)
    (by decide) (by rfl)

/-- Core of claim C6, over already-parsed events: two same-id leg-bearing
events where the first ends at a base airport resolve into two distinct
singleton pairings, each passed through `validate`. -/
theorem buildFromParsed_pair (p1 p2 : PairingBuilder.ParsedEvent)
    (hpid : p1.pairing_id = p2.pairing_id)
    (hip1 : p1.is_pairing = true) (hip2 : p2.is_pairing = true)
    (hl1 : p1.legs ≠ []) (hl2 : p2.legs ≠ [])
    (hbase : ∃ b, p1.last_arrival = some b ∧
      b ∈ PairingBuilder.get_base_airports p1.pairing_id)
    (hord : optTimeLe p1.start_utc p2.start_utc = true) :
    PairingBuilder.buildFromParsed [p1, p2] =
      [PairingBuilder.validate (PairingBuilder.singletonPairing p1.pairing_id
        (PairingBuilder.get_base_airports p1.pairing_id) p1),
       PairingBuilder.validate (PairingBuilder.singletonPairing p1.pairing_id
        (PairingBuilder.get_base_airports p1.pairing_id) p2)] := by
  have hcl1 : PairingBuilder.classify_event p1
        (PairingBuilder.get_base_airports p1.pairing_id) = "end" ∨
      PairingBuilder.classify_event p1
        (PairingBuilder.get_base_airports p1.pairing_id) = "single_day" := by
    obtain ⟨b, hb, hbmem⟩ := hbase
    unfold PairingBuilder.classify_event
    rw [if_neg hl1]
    simp only [hb]
    have hen : (PairingBuilder.get_base_airports p1.pairing_id).contains b = true := by
      simpa using hbmem
    rw [hen]
    cases hs : (match p1.first_departure with
      | some a => (PairingBuilder.get_base_airports p1.pairing_id).contains a
      | none => false) with
    | false => left; rfl
    | true => right; rfl
  have hnl2 : ¬ PairingBuilder.classify_event p2
      (PairingBuilder.get_base_airports p1.pairing_id) = "no_legs" := by
    have hne : ∀ s en : Bool,
        (if s && en then "single_day" else if s then "start" else if en then "end"
         else "middle") ≠ "no_legs" := by decide
    unfold PairingBuilder.classify_event
    rw [if_neg hl2]
    exact hne _ _
  have hproc : PairingBuilder.processPidEvents p1.pairing_id
      (PairingBuilder.get_base_airports p1.pairing_id) none [p1, p2] =
      [PairingBuilder.validate (PairingBuilder.singletonPairing p1.pairing_id
        (PairingBuilder.get_base_airports p1.pairing_id) p1),
       PairingBuilder.validate (PairingBuilder.singletonPairing p1.pairing_id
        (PairingBuilder.get_base_airports p1.pairing_id) p2)] := by
    by_cases hc2 : PairingBuilder.classify_event p2
        (PairingBuilder.get_base_airports p1.pairing_id) = "end" ∨
      PairingBuilder.classify_event p2
        (PairingBuilder.get_base_airports p1.pairing_id) = "single_day"
    · rcases hcl1 with h | h <;> rcases hc2 with h2 | h2 <;>
        simp [PairingBuilder.processPidEvents, h, h2,
          PairingBuilder.singletonPairing]
    · push_neg at hc2
      rcases hcl1 with h | h <;>
        simp [PairingBuilder.processPidEvents, h, hnl2, hc2.1, hc2.2,
          PairingBuilder.singletonPairing]
  have hfilter : ([p1, p2] : List PairingBuilder.ParsedEvent).filter (·.is_pairing) =
      [p1, p2] := by
    simp [List.filter, hip1, hip2]
  have hother : ([p1, p2] : List PairingBuilder.ParsedEvent).filter
      (fun e => ¬ e.is_pairing) = [] := by
    simp [List.filter, hip1, hip2]
  have hgroups : ([p1, p2] : List PairingBuilder.ParsedEvent).foldl
      (fun g e => addGroup g e.pairing_id e) [] = [(p1.pairing_id, [p1, p2])] := by
    simp only [List.foldl, addGroup]
    rw [if_pos hpid]
    rfl
  have hsort : stableSortBy
      (fun a b : PairingBuilder.ParsedEvent => optTimeLe a.start_utc b.start_utc)
      [p1, p2] = [p1, p2] := by
    simp only [stableSortBy, List.foldl, insertSortedBy]
    rw [if_pos hord]
  have hkey : optTimeLe
      (PairingBuilder.pairKey (PairingBuilder.validate
        (PairingBuilder.singletonPairing p1.pairing_id
          (PairingBuilder.get_base_airports p1.pairing_id) p1)))
      (PairingBuilder.pairKey (PairingBuilder.validate
        (PairingBuilder.singletonPairing p1.pairing_id
          (PairingBuilder.get_base_airports p1.pairing_id) p2))) = true := by
    simpa [PairingBuilder.pairKey, PairingBuilder.validate,
      PairingBuilder.singletonPairing] using hord
  simp only [PairingBuilder.buildFromParsed]
  rw [hfilter, hother, hgroups]
  simp only [List.map, List.flatten, hsort, hproc, List.append_nil, List.map_nil,
    List.nil_append]
  simp only [stableSortBy, List.foldl, insertSortedBy, hkey]
  rfl

/-- Claim C6: two raw events sharing the same (valid) pairing id, both with
parsed legs, where the earlier event's last parsed leg arrives at a base
airport of that id, resolve into two distinct singleton Pairing instances
— not one merged trip — and each instance is independently validated, its
completeness flag being the conjunction of its own starts/ends-at-base
flags. -/
theorem claim6_nonmerge (r1 r2 : RawEvent)
    (hpid : (PairingBuilder.mkParsedEvent r1).pairing_id =
      (PairingBuilder.mkParsedEvent r2).pairing_id)
    (hvalid : Parser.is_valid_pairing_id
      (PairingBuilder.mkParsedEvent r1).pairing_id = true)
    (hl1 : (PairingBuilder.mkParsedEvent r1).legs ≠ [])
    (hl2 : (PairingBuilder.mkParsedEvent r2).legs ≠ [])
    (hbase : ∃ b, (PairingBuilder.mkParsedEvent r1).last_arrival = some b ∧
      b ∈ PairingBuilder.get_base_airports (PairingBuilder.mkParsedEvent r1).pairing_id)
    (hord : optTimeLe r1.start_utc r2.start_utc = true) :
    PairingBuilder.build_pairings [r1, r2] =
      [PairingBuilder.validate (PairingBuilder.singletonPairing
        (PairingBuilder.mkParsedEvent r1).pairing_id
        (PairingBuilder.get_base_airports (PairingBuilder.mkParsedEvent r1).pairing_id)
        (PairingBuilder.mkParsedEvent r1)),
       PairingBuilder.validate (PairingBuilder.singletonPairing
        (PairingBuilder.mkParsedEvent r1).pairing_id
        (PairingBuilder.get_base_airports (PairingBuilder.mkParsedEvent r1).pairing_id)
        (PairingBuilder.mkParsedEvent r2))] ∧
    ∀ q ∈ PairingBuilder.build_pairings [r1, r2],
      q.is_complete = (q.starts_at_base && q.ends_at_base) := by
  have hip1 : (PairingBuilder.mkParsedEvent r1).is_pairing = true := hvalid
  have hip2 : (PairingBuilder.mkParsedEvent r2).is_pairing = true := by
    have h : (PairingBuilder.mkParsedEvent r2).is_pairing =
        Parser.is_valid_pairing_id (PairingBuilder.mkParsedEvent r2).pairing_id := rfl
    rw [h, ← hpid]
    exact hvalid
  have hmain := buildFromParsed_pair (PairingBuilder.mkParsedEvent r1)
    (PairingBuilder.mkParsedEvent r2) hpid hip1 hip2 hl1 hl2 hbase hord
  refine ⟨hmain, ?_⟩
  intro q hq
  rw [show PairingBuilder.build_pairings [r1, r2] =
    PairingBuilder.buildFromParsed
      [PairingBuilder.mkParsedEvent r1, PairingBuilder.mkParsedEvent r2] from rfl,
    hmain] at hq
  simp only [List.mem_cons, List.mem_singleton, List.not_mem_nil, or_false] at hq
  rcases hq with h | h <;> subst h <;>
    simp [PairingBuilder.validate]

/-- Claim C6 (witness): the two concrete W1234 occurrences, the first
returning to DFW, yield two separate validated pairings. -/
theorem claim6_witness :
    PairingBuilder.build_pairings [r1C6, r2C6] =
      [PairingBuilder.validate (PairingBuilder.singletonPairing
        (PairingBuilder.mkParsedEvent r1C6).pairing_id
        (PairingBuilder.get_base_airports (PairingBuilder.mkParsedEvent r1C6).pairing_id)
        (PairingBuilder.mkParsedEvent r1C6)),
       PairingBuilder.validate (PairingBuilder.singletonPairing
        (PairingBuilder.mkParsedEvent r1C6).pairing_id
        (PairingBuilder.get_base_airports (PairingBuilder.mkParsedEvent r1C6).pairing_id)
        (PairingBuilder.mkParsedEvent r2C6))] ∧
    ∀ q ∈ PairingBuilder.build_pairings [r1C6, r2C6],
      q.is_complete = (q.starts_at_base && q.ends_at_base) :=
  claim6_nonmerge r1C6 r2C6 (by decide) (by decide) (by decide) (by decide)
    ⟨"DFW", by decide, by decide⟩ (by decide)
